import Mathlib

/-!
# Fighting Fantasy Companion: the game-rules engine of `src/app.js`

A shallow embedding of the rules engine (stats, luck tests, potions, encounters,
combat rounds) and of the load-time sanitizer, followed by theorems about them.

Modelling conventions.

* JavaScript numbers are modelled by `Int`: the engine only adds, subtracts,
  compares and clamps small integers, where floating point arithmetic is exact.
* A value of type `number | null` is an `Option Int`; `toNumber` is the
  coercion JavaScript applies to `null` in arithmetic and comparisons.
* The single global `state` becomes an explicit `GameState`; a `World` pairs it
  with the count of dice drawn so far from the randomness source `rng`, so that
  "draws no dice" is a statement about that count.
* `nowStamp()` is the parameter `now`; `uid()` and the `prompt` answers of
  `addEncounter` are parameters of that operation.
* `saveState()` and `renderApp()` do not change `state` and are omitted.
-/

namespace FFCompanion

/-! ## Utilities -/

/-- `clamp(n, min, max) = Math.max(min, Math.min(max, n))`. -/
def clamp (n lo hi : Int) : Int := max lo (min hi n)

/-- Numeric coercion of a `number | null`: `null` counts as `0`. -/
def toNumber : Option Int → Int
  | some n => n
  | none => 0

/-- `Number.isFinite` on a `number | null`. -/
def isFinite (v : Option Int) : Bool := v.isSome

/-- Template-literal rendering of a `number | null`. -/
def fmt : Option Int → String
  | some n => toString n
  | none => "null"

/-! ## State -/

/-- A stat `{ initial, current }`, each `number | null`. -/
structure Stat where
  initial : Option Int
  current : Option Int
  deriving DecidableEq, Repr

/-- The potion record `{ choice, used }`. -/
structure Potion where
  choice : String
  used : Bool
  deriving DecidableEq, Repr

/-- The character sheet, `state.player`. -/
structure Player where
  name : String
  skill : Stat
  stamina : Stat
  luck : Stat
  provisions : Int
  gold : Int
  equipment : List String
  treasure : List String
  potion : Potion
  deriving DecidableEq, Repr

/-- An encounter `{id, name, skill, stamina:{initial,current}, status}`. -/
structure Encounter where
  id : String
  name : String
  skill : Int
  stamina : Stat
  status : String
  deriving DecidableEq, Repr

/-- The three logs, newest entry first. -/
structure Logs where
  luck : List String
  combat : List String
  dice : List String
  deriving DecidableEq, Repr

/-- The whole game state. -/
structure GameState where
  version : Int
  player : Player
  encounters : List Encounter
  activeEncounterId : Option String
  logs : Logs
  deriving DecidableEq, Repr

/-- The game state together with the number of dice drawn so far. -/
structure World where
  state : GameState
  drawn : Nat
  deriving DecidableEq, Repr

/-- `createDefaultState()`. -/
def createDefaultState : GameState :=
  { version := 1
    player :=
      { name := ""
        skill := { initial := none, current := none }
        stamina := { initial := none, current := none }
        luck := { initial := none, current := none }
        provisions := 10
        gold := 0
        equipment := []
        treasure := []
        potion := { choice := "none", used := false } }
    encounters := []
    activeEncounterId := none
    logs := { luck := [], combat := [], dice := [] } }

/-! ## Randomness source -/

/-- `rollDie()`: the next result of the randomness source. -/
def rollDie (rng : Nat → Int) (w : World) : Int × World :=
  (rng w.drawn, { w with drawn := w.drawn + 1 })

/-- `roll2d6()`: the sum of two successive dice. -/
def roll2d6 (rng : Nat → Int) (w : World) : Int × World :=
  let a := rollDie rng w
  let b := rollDie rng a.2
  (a.1 + b.1, b.2)

/-! ## Rules and helpers -/

/-- `hasStatsRolled()`: the three initial values are finite numbers. -/
def hasStatsRolled (s : GameState) : Bool :=
  [s.player.skill.initial, s.player.stamina.initial, s.player.luck.initial].all isFinite

/-- The body of the `forEach` of `enforceCaps` for one stat. -/
def capStat (st : Stat) : Stat :=
  match st.initial, st.current with
  | some init, some cur => { st with current := some (clamp cur 0 init) }
  | _, _ => st

/-- `enforceCaps(s)`. -/
def enforceCaps (s : GameState) : GameState :=
  { s with
    player :=
      { s.player with
        skill := capStat s.player.skill
        stamina := capStat s.player.stamina
        luck := capStat s.player.luck
        provisions := clamp s.player.provisions 0 999
        gold := clamp s.player.gold 0 999999 } }

/-- The text of a log entry: the time stamp in brackets, then the message. -/
def stamped (now msg : String) : String := "[" ++ now ++ "] " ++ msg

/-- `logLuck(msg)`. -/
def logLuck (now msg : String) (s : GameState) : GameState :=
  { s with logs := { s.logs with luck := stamped now msg :: s.logs.luck } }

/-- `logCombat(msg)`. -/
def logCombat (now msg : String) (s : GameState) : GameState :=
  { s with logs := { s.logs with combat := stamped now msg :: s.logs.combat } }

/-- `logDice(msg)`. -/
def logDice (now msg : String) (s : GameState) : GameState :=
  { s with logs := { s.logs with dice := stamped now msg :: s.logs.dice } }

/-- `rollInitialStats()`. -/
def rollInitialStats (rng : Nat → Int) (now : String) (w : World) : World :=
  let r1 := rollDie rng w
  let skill := r1.1 + 6
  let r2 := roll2d6 rng r1.2
  let stamina := r2.1 + 12
  let r3 := rollDie rng r2.2
  let luck := r3.1 + 6
  let s := r3.2.state
  let s1 : GameState :=
    { s with
      player :=
        { s.player with
          skill := { initial := some skill, current := some skill }
          stamina := { initial := some stamina, current := some stamina }
          luck := { initial := some luck, current := some luck } } }
  { r3.2 with state := logLuck now "Rolled initial stats." s1 }

/-- `eatProvision()`. -/
def eatProvision (now : String) (w : World) : World :=
  let s := w.state
  let p := s.player
  if !hasStatsRolled s then { w with state := logLuck now "Roll stats first." s }
  else if p.provisions ≤ 0 then { w with state := logLuck now "No provisions left." s }
  else
    { w with
      state :=
        { s with
          player :=
            { p with
              provisions := p.provisions - 1
              stamina :=
                { p.stamina with
                  current :=
                    some (clamp (toNumber p.stamina.current + 4) 0
                      (toNumber p.stamina.initial)) } } } }

/-- The message `testLuck` logs. -/
def luckTestMsg (roll : Int) (before : Option Int) (wasLucky : Bool) (after : Option Int) :
    String :=
  "Test Your Luck: rolled " ++ toString roll ++ " vs LUCK " ++ fmt before ++ " → " ++
    (if wasLucky then "LUCKY ✅" else "UNLUCKY ❌") ++ ". LUCK now " ++ fmt after ++ "."

/-- `testLuck()`: the returned boolean (`none` when it returns no boolean) and
the new world. -/
def testLuck (rng : Nat → Int) (now : String) (w : World) : Option Bool × World :=
  let s := w.state
  let p := s.player
  if !hasStatsRolled s then (none, { w with state := logLuck now "Roll stats first." s })
  else
    let r := roll2d6 rng w
    let roll := r.1
    let wasLucky : Bool := decide (roll ≤ toNumber p.luck.current)
    let before := p.luck.current
    let after := some (clamp (toNumber p.luck.current - 1) 0 (toNumber p.luck.initial))
    let s1 : GameState :=
      { s with player := { p with luck := { p.luck with current := after } } }
    (some wasLucky,
      { r.2 with state := logLuck now (luckTestMsg roll before wasLucky after) s1 })

/-- `choosePotion(value)`. -/
def choosePotion (value : String) (w : World) : World :=
  { w with
    state :=
      { w.state with
        player := { w.state.player with potion := { w.state.player.potion with choice := value } } } }

/-- `usePotion()`. -/
def usePotion (now : String) (w : World) : World :=
  let s := w.state
  let p := s.player
  if !hasStatsRolled s then { w with state := logLuck now "Roll stats first." s }
  else if p.potion.used then
    { w with state := logLuck now "Potion already used this adventure." s }
  else if p.potion.choice = "none" then
    { w with state := logLuck now "Choose a potion first." s }
  else
    let s1 : GameState :=
      if p.potion.choice = "skill" then
        logLuck now "Used Potion of Skill: SKILL restored to Initial."
          { s with player := { p with skill := { p.skill with current := p.skill.initial } } }
      else if p.potion.choice = "strength" then
        logLuck now "Used Potion of Strength: STAMINA restored to Initial."
          { s with
            player := { p with stamina := { p.stamina with current := p.stamina.initial } } }
      else if p.potion.choice = "fortune" then
        let init := p.luck.initial.getD 0 + 1
        logLuck now "Used Potion of Fortune: Initial LUCK +1, LUCK restored."
          { s with player := { p with luck := { initial := some init, current := some init } } }
      else s
    let s2 : GameState :=
      { s1 with player := { s1.player with potion := { s1.player.potion with used := true } } }
    { w with state := enforceCaps s2 }

/-! ## Encounters -/

/-- The object `addEncounter` builds from its answers. -/
def newEncounter (newId name : String) (skill stamina : Int) : Encounter :=
  { id := newId
    name := name.trim
    skill := clamp skill 1 99
    stamina := { initial := some (clamp stamina 1 999), current := some (clamp stamina 0 999) }
    status := "active" }

/-- `addEncounter()`. `newId` is the result of `uid()`; `name` is the answer to
the first prompt (`none` when cancelled); `skill` and `stamina` are the two
`Number(prompt(..))` results, `none` when not a finite number. -/
def addEncounter (newId : String) (name : Option String) (skill stamina : Option Int)
    (w : World) : World :=
  match name with
  | none => w
  | some nm =>
    if nm = "" then w
    else
      match skill, stamina with
      | some sk, some st =>
        { w with
          state :=
            { w.state with
              encounters := newEncounter newId nm sk st :: w.state.encounters
              activeEncounterId := some newId } }
      | _, _ => w

/-- `setActiveEncounter(id)`. -/
def setActiveEncounter (id : String) (w : World) : World :=
  { w with state := { w.state with activeEncounterId := some id } }

/-- `state.encounters.find((e) => e.id === id)`. -/
def findEncounter (id : String) (es : List Encounter) : Option Encounter :=
  es.find? (fun e => e.id == id)

/-- `findActiveEncounter()`. -/
def findActiveEncounter (s : GameState) : Option Encounter :=
  match s.activeEncounterId with
  | none => none
  | some id => findEncounter id s.encounters

/-- In-place mutation of the object `find` returned: the first encounter with
the given id is replaced by its image under `f`. -/
def updateEncounter (id : String) (f : Encounter → Encounter) : List Encounter → List Encounter
  | [] => []
  | e :: es => if e.id == id then f e :: es else e :: updateEncounter id f es

/-- The two assignments `damageEncounter` and `combatRound` make to an encounter:
stamina is reduced and clamped, and reaching `0` marks it defeated. -/
def hitEncounter (dmg : Int) (e : Encounter) : Encounter :=
  let cur := clamp (toNumber e.stamina.current - dmg) 0 (toNumber e.stamina.initial)
  { e with
    stamina := { e.stamina with current := some cur }
    status := if cur = 0 then "defeated" else e.status }

/-- `damageEncounter(id, dmg)`. -/
def damageEncounter (id : String) (dmg : Int) (w : World) : World :=
  match findEncounter id w.state.encounters with
  | none => w
  | some _ =>
    { w with
      state := { w.state with encounters := updateEncounter id (hitEncounter dmg) w.state.encounters } }

/-- `removeEncounter(id)`. -/
def removeEncounter (id : String) (w : World) : World :=
  { w with
    state :=
      { w.state with
        encounters := w.state.encounters.filter (fun e => e.id != id)
        activeEncounterId :=
          if w.state.activeEncounterId = some id then none else w.state.activeEncounterId } }

/-- The assignment of `toggleEncounterEscaped`. -/
def flipEscaped (e : Encounter) : Encounter :=
  { e with status := if e.status = "escaped" then "active" else "escaped" }

/-- `toggleEncounterEscaped(id)`. -/
def toggleEncounterEscaped (id : String) (w : World) : World :=
  match findEncounter id w.state.encounters with
  | none => w
  | some _ =>
    { w with state := { w.state with encounters := updateEncounter id flipEscaped w.state.encounters } }

/-! ## Combat -/

/-- The local variable `outcome` of `combatRound`. -/
inductive Outcome where
  | tie
  | player
  | monster
  deriving DecidableEq, Repr

/-- Lines 331 to 333: who has the greater attack strength. -/
def outcomeOf (playerAS monsterAS : Int) : Outcome :=
  if playerAS > monsterAS then Outcome.player
  else if monsterAS > playerAS then Outcome.monster
  else Outcome.tie

/-- What a combat round that got past its preconditions computed. -/
structure RoundReport where
  playerAS : Int
  monsterAS : Int
  outcome : Outcome
  damage : Int
  deriving DecidableEq, Repr

/-- The message of the luck step of `combatRound`. -/
def luckUsedMsg (luckRoll : Int) (before : Option Int) (lucky : Bool) (after : Option Int) :
    String :=
  "Luck used: rolled " ++ toString luckRoll ++ " vs LUCK " ++ fmt before ++ " → " ++
    (if lucky then "LUCKY ✅" else "UNLUCKY ❌") ++ ". LUCK now " ++ fmt after ++ "."

/-- The message of a round the player won. -/
def playerWinsMsg (playerAS playerRoll : Int) (skill : Option Int)
    (monsterAS monsterRoll encSkill damage : Int) : String :=
  "Player wins: Player AS " ++ toString playerAS ++ " (2d6=" ++ toString playerRoll ++
    "+SKILL=" ++ fmt skill ++ ") vs Monster AS " ++ toString monsterAS ++ " (2d6=" ++
    toString monsterRoll ++ "+SKILL=" ++ toString encSkill ++ "). Damage to monster: " ++
    toString damage ++ "."

/-- The message of a round the monster won. -/
def monsterWinsMsg (playerAS playerRoll : Int) (skill : Option Int)
    (monsterAS monsterRoll encSkill damage : Int) : String :=
  "Monster wins: Monster AS " ++ toString monsterAS ++ " (2d6=" ++ toString monsterRoll ++
    "+SKILL=" ++ toString encSkill ++ ") vs Player AS " ++ toString playerAS ++ " (2d6=" ++
    toString playerRoll ++ "+SKILL=" ++ fmt skill ++ "). Damage to player: " ++
    toString damage ++ "."

/-- The message of a tied round. -/
def tieMsg (playerAS monsterAS : Int) : String :=
  "Tie: Player AS " ++ toString playerAS ++ " vs Monster AS " ++ toString monsterAS ++
    ". No damage."

/-- Lines 335 to 348: the luck step, run when `useLuck` holds and the round is
not a tie. Returns the damage and the world after the luck roll. -/
def luckStep (outcome : Outcome) (rng : Nat → Int) (now : String) (w : World) : Int × World :=
  let p := w.state.player
  let r := roll2d6 rng w
  let luckRoll := r.1
  let beforeLuck := p.luck.current
  let lucky : Bool := decide (luckRoll ≤ toNumber p.luck.current)
  let after := some (clamp (toNumber p.luck.current - 1) 0 (toNumber p.luck.initial))
  let damage : Int :=
    if outcome = Outcome.player then (if lucky then 4 else 1) else (if lucky then 1 else 3)
  let s1 : GameState :=
    { w.state with player := { p with luck := { p.luck with current := after } } }
  (damage, { r.2 with state := logCombat now (luckUsedMsg luckRoll beforeLuck lucky after) s1 })

/-- `combatRound(useLuck)`: the new world, and the report of the round when the
preconditions held (`none` when the call only logged a failure). -/
def combatRound (useLuck : Bool) (rng : Nat → Int) (now : String) (w : World) :
    World × Option RoundReport :=
  let s := w.state
  if !hasStatsRolled s then ({ w with state := logCombat now "Roll stats first." s }, none)
  else
    match findActiveEncounter s with
    | none => ({ w with state := logCombat now "No active monster selected." s }, none)
    | some enc =>
      if enc.status ≠ "active" then
        ({ w with state := logCombat now "Active monster is not in \x27active\x27 status." s },
          none)
      else
        let r1 := roll2d6 rng w
        let playerRoll := r1.1
        let r2 := roll2d6 rng r1.2
        let monsterRoll := r2.1
        let playerAS := playerRoll + toNumber s.player.skill.current
        let monsterAS := monsterRoll + enc.skill
        let outcome := outcomeOf playerAS monsterAS
        let l : Int × World :=
          if useLuck && decide (outcome ≠ Outcome.tie) then luckStep outcome rng now r2.2
          else (2, r2.2)
        let damage := l.1
        let w3 := l.2
        let s3 := w3.state
        let s4 : GameState :=
          match outcome with
          | Outcome.player =>
            logCombat now
              (playerWinsMsg playerAS playerRoll s3.player.skill.current monsterAS monsterRoll
                enc.skill damage)
              { s3 with encounters := updateEncounter enc.id (hitEncounter damage) s3.encounters }
          | Outcome.monster =>
            logCombat now
              (monsterWinsMsg playerAS playerRoll s3.player.skill.current monsterAS monsterRoll
                enc.skill damage)
              { s3 with
                player :=
                  { s3.player with
                    stamina :=
                      { s3.player.stamina with
                        current :=
                          some (clamp (toNumber s3.player.stamina.current - damage) 0
                            (toNumber s3.player.stamina.initial)) } } }
          | Outcome.tie => logCombat now (tieMsg playerAS monsterAS) s3
        ({ w3 with state := enforceCaps s4 },
          some { playerAS := playerAS, monsterAS := monsterAS, outcome := outcome, damage := damage })

/-! ## Operations as data, and the invariants -/

/-- The engine operations, with their arguments. -/
inductive Op where
  | rollInitialStats
  | eatProvision
  | testLuck
  | usePotion
  | addEncounter (newId : String) (name : Option String) (skill stamina : Option Int)
  | damageEncounter (id : String) (dmg : Int)
  | removeEncounter (id : String)
  | toggleEncounterEscaped (id : String)
  | setActiveEncounter (id : String)
  | combatRound (useLuck : Bool)

/-- The world after one engine operation. -/
def step (op : Op) (rng : Nat → Int) (now : String) (w : World) : World :=
  match op with
  | Op.rollInitialStats => rollInitialStats rng now w
  | Op.eatProvision => eatProvision now w
  | Op.testLuck => (testLuck rng now w).2
  | Op.usePotion => usePotion now w
  | Op.addEncounter newId name skill stamina => addEncounter newId name skill stamina w
  | Op.damageEncounter id dmg => damageEncounter id dmg w
  | Op.removeEncounter id => removeEncounter id w
  | Op.toggleEncounterEscaped id => toggleEncounterEscaped id w
  | Op.setActiveEncounter id => setActiveEncounter id w
  | Op.combatRound useLuck => (combatRound useLuck rng now w).1

/-- `0 <= current <= initial` when both values are set. -/
def statBounds (st : Stat) : Bool :=
  match st.initial, st.current with
  | some i, some c => decide (0 ≤ c ∧ c ≤ i)
  | _, _ => true

/-- The stat-bounds invariant on the three player stats. -/
def playerBounds (p : Player) : Bool :=
  statBounds p.skill && statBounds p.stamina && statBounds p.luck

/-- The stat-bounds invariant: the three player stats and every encounter's
stamina. -/
def statsInv (s : GameState) : Bool :=
  playerBounds s.player && s.encounters.all (fun e => statBounds e.stamina)

/-- An `initial` value that is set is not negative. -/
def initNonneg (st : Stat) : Bool :=
  match st.initial with
  | some i => decide (0 ≤ i)
  | none => true

/-- Every `initial` value that is set, of a player stat or of an encounter's
stamina, is not negative. -/
def initialsNonneg (s : GameState) : Bool :=
  initNonneg s.player.skill && initNonneg s.player.stamina && initNonneg s.player.luck &&
    s.encounters.all (fun e => initNonneg e.stamina)

/-- Every die of the randomness source shows 1 to 6. -/
def DiceOk (rng : Nat → Int) : Prop := ∀ i, 1 ≤ rng i ∧ rng i ≤ 6

/-! ## Persistence: snapshots as JSON values

`saveState` writes `JSON.stringify(state)` and `loadState` passes
`JSON.parse(raw)` to `sanitizeState`, so the sanitizer receives an arbitrary JSON
value. Finite numbers are the integer ones; a literal beyond the range of a
double, such as `1e400`, is parsed to `Infinity` or `-Infinity`, which
`Number.isFinite` rejects, and is kept apart. An object is its list of own properties;
the first binding of a key is its value, and the position of a key in the list
plays no part in any property below. -/

/-- A JSON value, as `JSON.parse` returns it. -/
inductive JVal where
  | null
  | bool (b : Bool)
  | num (n : Int)
  | inf (negative : Bool)
  | str (s : String)
  | arr (xs : List JVal)
  | obj (kvs : List (String × JVal))

/-- The value of own property `k`, `none` for `undefined`. -/
def getKey (k : String) : List (String × JVal) → Option JVal
  | [] => none
  | kv :: rest => if kv.1 = k then some kv.2 else getKey k rest

/-- The assignment `o[k] = v`: an existing key keeps its place, a new key
comes last. -/
def setKey (k : String) (v : JVal) : List (String × JVal) → List (String × JVal)
  | [] => [(k, v)]
  | kv :: rest => if kv.1 = k then (k, v) :: rest else kv :: setKey k v rest

/-- The object literal `{ ...a, ...b }`. -/
def spread (a b : List (String × JVal)) : List (String × JVal) :=
  a.map (fun kv => (kv.1, (getKey kv.1 b).getD kv.2)) ++
    b.filter (fun kv => (getKey kv.1 a).isNone)

/-- The own enumerable properties a spread copies from a value: the properties
of an object, the indexed elements of an array, the indexed characters of a
string, nothing for `null`, a boolean or a number. -/
def ownProps : JVal → List (String × JVal)
  | JVal.obj kvs => kvs
  | JVal.arr xs => xs.enum.map (fun ix => (toString ix.1, ix.2))
  | JVal.str s => s.toList.enum.map (fun ic => (toString ic.1, JVal.str ic.2.toString))
  | _ => []

/-- JavaScript truthiness of a JSON value. -/
def truthy : JVal → Bool
  | JVal.null => false
  | JVal.bool b => b
  | JVal.num n => decide (n ≠ 0)
  | JVal.inf _ => true
  | JVal.str s => decide (s ≠ "")
  | JVal.arr _ => true
  | JVal.obj _ => true

/-- The properties spread by `...(x || {})`, where `x` may be `undefined`. -/
def orEmpty : Option JVal → List (String × JVal)
  | some v => if truthy v then ownProps v else []
  | none => []

/-- `Array.isArray(x) ? x : []`. -/
def arrayOrEmpty : Option JVal → JVal
  | some (JVal.arr xs) => JVal.arr xs
  | _ => JVal.arr []

/-- `Number.isFinite(x) ? x : dflt`: only a finite number is kept. -/
def finiteOr (dflt : Int) : Option JVal → Int
  | some (JVal.num n) => n
  | _ => dflt

/-- JSON of a `number | null`. -/
def optNum : Option Int → JVal
  | some n => JVal.num n
  | none => JVal.null

/-- JSON of a `string | null`. -/
def optStr : Option String → JVal
  | some s => JVal.str s
  | none => JVal.null

/-- JSON of a list of strings. -/
def strArr (xs : List String) : JVal := JVal.arr (xs.map JVal.str)

/-- The properties of a stat. -/
def statProps (st : Stat) : List (String × JVal) :=
  [("initial", optNum st.initial), ("current", optNum st.current)]

/-- The properties of a potion record. -/
def potionProps (q : Potion) : List (String × JVal) :=
  [("choice", JVal.str q.choice), ("used", JVal.bool q.used)]

/-- The properties of a character sheet, in the key order of
`createDefaultState`. -/
def playerProps (p : Player) : List (String × JVal) :=
  [("name", JVal.str p.name), ("skill", JVal.obj (statProps p.skill)),
    ("stamina", JVal.obj (statProps p.stamina)), ("luck", JVal.obj (statProps p.luck)),
    ("provisions", JVal.num p.provisions), ("gold", JVal.num p.gold),
    ("equipment", strArr p.equipment), ("treasure", strArr p.treasure),
    ("potion", JVal.obj (potionProps p.potion))]

/-- JSON of an encounter. -/
def encounterJson (e : Encounter) : JVal :=
  JVal.obj [("id", JVal.str e.id), ("name", JVal.str e.name), ("skill", JVal.num e.skill),
    ("stamina", JVal.obj (statProps e.stamina)), ("status", JVal.str e.status)]

/-- The properties of the logs record. -/
def logsProps (l : Logs) : List (String × JVal) :=
  [("luck", strArr l.luck), ("combat", strArr l.combat), ("dice", strArr l.dice)]

/-- The properties of a game state, in the key order of `createDefaultState`. -/
def stateProps (s : GameState) : List (String × JVal) :=
  [("version", JVal.num s.version), ("player", JVal.obj (playerProps s.player)),
    ("encounters", JVal.arr (s.encounters.map encounterJson)),
    ("activeEncounterId", optStr s.activeEncounterId), ("logs", JVal.obj (logsProps s.logs))]

/-- The snapshot `saveState` stores and `loadState` parses back:
`JSON.parse(JSON.stringify(state))`. -/
def toJson (s : GameState) : JVal := JVal.obj (stateProps s)

/-- One round of the `forEach` of `sanitizeState`:
`out.player[k] = { ...d.player[k], ...(out.player[k] || {}) }`. -/
def mergeStat (k : String) (dflt : Stat) (p : List (String × JVal)) : List (String × JVal) :=
  setKey k (JVal.obj (spread (statProps dflt) (orEmpty (getKey k p)))) p

/-- One round of the `forEach` of `enforceCaps`, on the properties of the
player object. In `sanitizeState` the property `k` is an object with both keys. -/
def capStatProps (k : String) (p : List (String × JVal)) : List (String × JVal) :=
  match getKey k p with
  | some (JVal.obj st) =>
    match getKey "initial" st, getKey "current" st with
    | some (JVal.num init), some (JVal.num cur) =>
      setKey k (JVal.obj (setKey "current" (JVal.num (clamp cur 0 init)) st)) p
    | _, _ => p
  | _ => p

/-- `enforceCaps(out)` as `sanitizeState` calls it, on the properties of `out`,
whose `player` is an object with numeric `provisions` and `gold`. -/
def enforceCapsProps (out : List (String × JVal)) : List (String × JVal) :=
  match getKey "player" out with
  | some (JVal.obj p) =>
    let p1 := capStatProps "luck" (capStatProps "stamina" (capStatProps "skill" p))
    let p2 := setKey "provisions" (JVal.num (clamp (finiteOr 0 (getKey "provisions" p1)) 0 999)) p1
    let p3 := setKey "gold" (JVal.num (clamp (finiteOr 0 (getKey "gold" p2)) 0 999999)) p2
    setKey "player" (JVal.obj p3) out
  | _ => out

/-- Lines 103 to 105: a potion choice outside the four known ones becomes
`"none"`. -/
def fixChoice (q : List (String × JVal)) : List (String × JVal) :=
  match getKey "choice" q with
  | some (JVal.str c) =>
    if c ∈ ["none", "skill", "strength", "fortune"] then q
    else setKey "choice" (JVal.str "none") q
  | _ => setKey "choice" (JVal.str "none") q

/-- The player object `sanitizeState` builds, before `enforceCaps`. -/
def sanitizePlayer (s : JVal) : List (String × JVal) :=
  let p0 := spread (playerProps createDefaultState.player) (orEmpty (getKey "player" (ownProps s)))
  let p1 :=
    mergeStat "luck" createDefaultState.player.luck
      (mergeStat "stamina" createDefaultState.player.stamina
        (mergeStat "skill" createDefaultState.player.skill p0))
  let p2 :=
    setKey "name"
      (match getKey "name" p1 with
        | some (JVal.str n) => JVal.str n
        | _ => JVal.str "") p1
  let p3 := setKey "equipment" (arrayOrEmpty (getKey "equipment" p2)) p2
  let p4 := setKey "treasure" (arrayOrEmpty (getKey "treasure" p3)) p3
  let p5 := setKey "provisions" (JVal.num (finiteOr 10 (getKey "provisions" p4))) p4
  let p6 := setKey "gold" (JVal.num (finiteOr 0 (getKey "gold" p5))) p5
  let q0 := spread (potionProps createDefaultState.player.potion) (orEmpty (getKey "potion" p6))
  let q1 := fixChoice q0
  let q2 := setKey "used" (JVal.bool ((getKey "used" q1).elim false truthy)) q1
  setKey "potion" (JVal.obj q2) p6

/-- The logs object `sanitizeState` builds. -/
def sanitizeLogs (out : List (String × JVal)) : List (String × JVal) :=
  let l0 := spread (logsProps createDefaultState.logs) (orEmpty (getKey "logs" out))
  let l1 := setKey "luck" (arrayOrEmpty (getKey "luck" l0)) l0
  let l2 := setKey "combat" (arrayOrEmpty (getKey "combat" l1)) l1
  setKey "dice" (arrayOrEmpty (getKey "dice" l2)) l2

/-- The object `sanitizeState` has built when it calls `enforceCaps`. -/
def sanitizeMerge (s : JVal) : List (String × JVal) :=
  let out0 := spread (stateProps createDefaultState) (ownProps s)
  let out1 := setKey "player" (JVal.obj (sanitizePlayer s)) out0
  let out2 := setKey "encounters" (arrayOrEmpty (getKey "encounters" out1)) out1
  let out3 :=
    setKey "activeEncounterId"
      (match getKey "activeEncounterId" out2 with
        | some v => v
        | none => JVal.null) out2
  setKey "logs" (JVal.obj (sanitizeLogs out3)) out3

/-- `sanitizeState(s)`: `none` when it raises (reading `s.player` of `null`),
otherwise the object it returns. -/
def sanitizeState (s : JVal) : Option JVal :=
  match s with
  | JVal.null => none
  | _ => some (JVal.obj (enforceCapsProps (sanitizeMerge s)))

/-- `loadState()` given the stored text parsed (`none` when nothing is stored or
parsing raised): the default state, as JSON, when nothing could be read or
`sanitizeState` raised. -/
def loadState (parsed : Option JVal) : JVal :=
  match parsed with
  | none => toJson createDefaultState
  | some s => (sanitizeState s).getD (toJson createDefaultState)

/-! ## The data-model invariants on a snapshot -/

/-- The properties of a value read as an object; none when it is not one. -/
def propsOf : Option JVal → List (String × JVal)
  | some (JVal.obj kvs) => kvs
  | _ => []

/-- Stat bounds on the properties of a stat: `0 <= current <= initial` when
both are numbers. -/
def statOkProps (st : List (String × JVal)) : Bool :=
  match getKey "initial" st, getKey "current" st with
  | some (JVal.num i), some (JVal.num c) => decide (0 ≤ c ∧ c ≤ i)
  | _, _ => true

/-- Stat bounds on the properties of a stat: when `initial` and `current` are
both finite numbers and `initial` is not negative, `0 <= current <= initial`. -/
def statOkNonnegProps (st : List (String × JVal)) : Bool :=
  match getKey "initial" st, getKey "current" st with
  | some (JVal.num i), some (JVal.num c) => decide (0 ≤ i → 0 ≤ c ∧ c ≤ i)
  | _, _ => true

/-- The value is a list. -/
def isArr : Option JVal → Bool
  | some (JVal.arr _) => true
  | _ => false

/-- The value is a boolean. -/
def isBoolean : Option JVal → Bool
  | some (JVal.bool _) => true
  | _ => false

/-- The value is a number in `[lo, hi]`. -/
def numIn (lo hi : Int) : Option JVal → Bool
  | some (JVal.num n) => decide (lo ≤ n ∧ n ≤ hi)
  | _ => false

/-- The value is one of the four potion choices. -/
def choiceOk : Option JVal → Bool
  | some (JVal.str c) => decide (c ∈ ["none", "skill", "strength", "fortune"])
  | _ => false

/-- Every element of the list that is an object with a stamina object satisfies
the stat bounds on it. -/
def encountersOk : Option JVal → Bool
  | some (JVal.arr es) => es.all (fun e => statOkProps (propsOf (getKey "stamina" (ownProps e))))
  | _ => true

/-- The invariants of the data model other than the stat bounds: provisions in
`[0, 999]`, gold in `[0, 999999]`, a potion choice of the enum, a boolean
`used`, and lists for equipment, treasure, encounters and the three logs. -/
def shapeInv (out : JVal) : Bool :=
  let o := ownProps out
  let p := propsOf (getKey "player" o)
  let q := propsOf (getKey "potion" p)
  let l := propsOf (getKey "logs" o)
  numIn 0 999 (getKey "provisions" p) && numIn 0 999999 (getKey "gold" p) &&
    choiceOk (getKey "choice" q) && isBoolean (getKey "used" q) &&
    isArr (getKey "equipment" p) && isArr (getKey "treasure" p) &&
    isArr (getKey "encounters" o) &&
    isArr (getKey "luck" l) && isArr (getKey "combat" l) && isArr (getKey "dice" l)

/-- The stat bounds on the three player stats of a snapshot. -/
def playerStatsOk (out : JVal) : Bool :=
  let p := propsOf (getKey "player" (ownProps out))
  statOkProps (propsOf (getKey "skill" p)) && statOkProps (propsOf (getKey "stamina" p)) &&
    statOkProps (propsOf (getKey "luck" p))

/-- The value is a stat record: an object with the keys `initial` and
`current` in which, when both are finite numbers and `initial` is not negative,
`0 <= current <= initial`. -/
def statOkNonneg : Option JVal → Bool
  | some (JVal.obj st) =>
    (getKey "initial" st).isSome && (getKey "current" st).isSome && statOkNonnegProps st
  | _ => false

/-- Each of the three player stats of a snapshot is a stat record within the
bounds when its two values are finite numbers and its initial value is not
negative. -/
def playerStatsOkNonneg (out : JVal) : Bool :=
  let p := propsOf (getKey "player" (ownProps out))
  statOkNonneg (getKey "skill" p) && statOkNonneg (getKey "stamina" p) &&
    statOkNonneg (getKey "luck" p)

/-- All the invariants of the data model on a snapshot: the stat bounds on the
player stats and on every encounter's stamina, and the shape invariants. -/
def dataModelInv (out : JVal) : Bool :=
  playerStatsOk out && shapeInv out && encountersOk (getKey "encounters" (ownProps out))

/-- A snapshot whose only encounter has stamina 50 of 8. -/
def overfullEncounterSnapshot : JVal :=
  JVal.obj
    [("encounters",
      JVal.arr
        [JVal.obj
          [("id", JVal.str "m1"), ("name", JVal.str "Orc"), ("skill", JVal.num 8),
            ("stamina", JVal.obj [("initial", JVal.num 8), ("current", JVal.num 50)]),
            ("status", JVal.str "active")]])]

/-- A snapshot whose skill has the current value `Infinity`, as parsed from
`1e400`, and whose provisions and gold are `Infinity` too. -/
def infiniteSnapshot : JVal :=
  JVal.obj
    [("player",
      JVal.obj
        [("skill", JVal.obj [("initial", JVal.num 5), ("current", JVal.inf false)]),
          ("provisions", JVal.inf false), ("gold", JVal.inf false)])]

/-- A snapshot whose stamina has the string `"50"` as current value. -/
def stringCurrentSnapshot : JVal :=
  JVal.obj
    [("player",
      JVal.obj [("stamina", JVal.obj [("initial", JVal.num 20), ("current", JVal.str "50")])])]

/-- A malformed snapshot: skill 50 of 10, provisions 5000, gold -3, a string for
equipment, an unknown potion choice with the number 1 for `used`, `null` for the
encounters and a number for the luck log. -/
def messySnapshot : JVal :=
  JVal.obj
    [("player",
      JVal.obj
        [("skill", JVal.obj [("initial", JVal.num 10), ("current", JVal.num 50)]),
          ("provisions", JVal.num 5000), ("gold", JVal.num (-3)),
          ("equipment", JVal.str "sword"),
          ("potion", JVal.obj [("choice", JVal.str "bogus"), ("used", JVal.num 1)])]),
      ("encounters", JVal.null),
      ("logs", JVal.obj [("luck", JVal.num 3)])]

/-- A snapshot whose skill is 3 of -5. -/
def negInitialSnapshot : JVal :=
  JVal.obj
    [("player",
      JVal.obj [("skill", JVal.obj [("initial", JVal.num (-5)), ("current", JVal.num 3)])])]

/-- A game state is well formed when its player stats satisfy the stat bounds,
provisions is in `[0, 999]`, gold is in `[0, 999999]` and the potion choice is
one of the four known ones. The types already make every field present. -/
def WellFormed (s : GameState) : Prop :=
  playerBounds s.player = true ∧
    (0 ≤ s.player.provisions ∧ s.player.provisions ≤ 999) ∧
    (0 ≤ s.player.gold ∧ s.player.gold ≤ 999999) ∧
    s.player.potion.choice ∈ ["none", "skill", "strength", "fortune"]

/-! ## Sample states -/

/-- A monster with skill 8 and stamina 8 of 8, in status active. -/
def sampleEncounter : Encounter :=
  { id := "m1", name := "Orc", skill := 8
    stamina := { initial := some 8, current := some 8 }, status := "active" }

/-- A rolled sheet (skill 10, stamina 20, luck 10, all full) with the potion of
skill chosen and unused, facing `sampleEncounter` as the active encounter. -/
def sampleState : GameState :=
  { createDefaultState with
    player :=
      { createDefaultState.player with
        skill := { initial := some 10, current := some 10 }
        stamina := { initial := some 20, current := some 20 }
        luck := { initial := some 10, current := some 10 }
        potion := { choice := "skill", used := false } }
    encounters := [sampleEncounter]
    activeEncounterId := some "m1" }

/-- The sample state before any die was drawn. -/
def sampleWorld : World := { state := sampleState, drawn := 0 }

/-- Dice 3, 3, 1, 2, 1, 1 and then 1 for ever: a player roll of 6, a monster
roll of 3 and a luck roll of 2. -/
def sampleDice (i : Nat) : Int := [3, 3, 1, 2, 1, 1].getD i 1

/-- A sheet whose stamina has a negative initial value and no current value. -/
def mixedState : GameState :=
  { createDefaultState with
    player :=
      { createDefaultState.player with
        skill := { initial := some 7, current := some 7 }
        stamina := { initial := some (-3), current := none }
        luck := { initial := some 7, current := some 7 } } }

/-- A sheet whose stamina exceeds its initial value (50 of 20), facing
`sampleEncounter` as the active encounter. -/
def overfullState : GameState :=
  { sampleState with
    player :=
      { sampleState.player with stamina := { initial := some 20, current := some 50 } } }

/-! ## Quantities of a combat round -/

/-- The player's 2d6 roll of a round started in `w`: the next two dice. -/
def playerRollOf (rng : Nat → Int) (w : World) : Int := (roll2d6 rng w).1

/-- The monster's 2d6 roll of a round started in `w`: the two dice after the
player's. -/
def monsterRollOf (rng : Nat → Int) (w : World) : Int := (roll2d6 rng (roll2d6 rng w).2).1

/-- The luck roll of a round started in `w`, when one is drawn: the two dice
after the monster's. -/
def luckRollOf (rng : Nat → Int) (w : World) : Int :=
  (roll2d6 rng (roll2d6 rng (roll2d6 rng w).2).2).1

/-- The player's attack strength: the roll plus the current skill. -/
def playerASOf (rng : Nat → Int) (w : World) : Int :=
  playerRollOf rng w + toNumber w.state.player.skill.current

/-- The monster's attack strength: the roll plus the encounter's skill. -/
def monsterASOf (rng : Nat → Int) (w : World) (enc : Encounter) : Int :=
  monsterRollOf rng w + enc.skill

/-- The preconditions of `combatRound`: stats rolled, and the active encounter
`enc` exists and has status active. -/
def CombatReady (w : World) (enc : Encounter) : Prop :=
  hasStatsRolled w.state = true ∧ findActiveEncounter w.state = some enc ∧ enc.status = "active"

/-- Whether the luck test of a round with luck started in `w` is lucky: the
luck roll is at most the current luck before the call. -/
def luckyOf (rng : Nat → Int) (w : World) : Bool :=
  decide (luckRollOf rng w ≤ toNumber w.state.player.luck.current)

/-- Dice 1, 1, 2, 2 and then 1 for ever: a player roll of 2 and a monster roll
of 4. -/
def tieDice (i : Nat) : Int := [1, 1, 2, 2].getD i 1

/-! ## Log-only outcomes -/

/-- Between `w` and `v` nothing changed but the luck log, which gained exactly
one entry: no die was drawn, and the sheet, the registry, the active id and the
other two logs are the same. -/
def LuckLogOnly (w v : World) : Prop :=
  v.drawn = w.drawn ∧ v.state.version = w.state.version ∧ v.state.player = w.state.player ∧
    v.state.encounters = w.state.encounters ∧
    v.state.activeEncounterId = w.state.activeEncounterId ∧
    (∃ entry, v.state.logs.luck = entry :: w.state.logs.luck) ∧
    v.state.logs.combat = w.state.logs.combat ∧ v.state.logs.dice = w.state.logs.dice

/-- Between `w` and `v` nothing changed but the combat log, which gained exactly
one entry. -/
def CombatLogOnly (w v : World) : Prop :=
  v.drawn = w.drawn ∧ v.state.version = w.state.version ∧ v.state.player = w.state.player ∧
    v.state.encounters = w.state.encounters ∧
    v.state.activeEncounterId = w.state.activeEncounterId ∧
    (∃ entry, v.state.logs.combat = entry :: w.state.logs.combat) ∧
    v.state.logs.luck = w.state.logs.luck ∧ v.state.logs.dice = w.state.logs.dice

/-- The sample sheet with a skill that has a negative initial value and no
current value; the potion of skill is chosen and unused. -/
def negSkillState : GameState :=
  { sampleState with
    player := { sampleState.player with skill := { initial := some (-3), current := none } } }

/-- The set initial values of the three player stats are not negative. -/
def playerInitialsNonneg (p : Player) : Bool :=
  initNonneg p.skill && initNonneg p.stamina && initNonneg p.luck

/-! ## Sequences of operations and the registry invariant -/

/-- The world after a sequence of operations, each given with the clock reading
at its call. -/
def runOps (rng : Nat → Int) : List (String × Op) → World → World
  | [], w => w
  | call :: rest, w => runOps rng rest (step call.2 rng call.1 w)

/-- The six operations on the encounter registry. -/
def isRegistryOp : Op → Bool
  | Op.addEncounter _ _ _ _ => true
  | Op.setActiveEncounter _ => true
  | Op.removeEncounter _ => true
  | Op.damageEncounter _ _ => true
  | Op.toggleEncounterEscaped _ => true
  | Op.combatRound _ => true
  | _ => false

/-- Some encounter of the list has the id. -/
def hasEncounter (id : String) (es : List Encounter) : Bool := es.any (fun e => e.id == id)

/-- The registry invariant: the active id is unset or is the id of an encounter
of the registry. -/
def activeOk (s : GameState) : Bool :=
  match s.activeEncounterId with
  | none => true
  | some a => hasEncounter a s.encounters

/-- Along the sequence, every `setActiveEncounter(id)` is called with the id of
an encounter the registry holds at that moment. -/
def setActiveExisting (rng : Nat → Int) : List (String × Op) → World → Bool
  | [], _ => true
  | call :: rest, w =>
    (match call.2 with
      | Op.setActiveEncounter id => hasEncounter id w.state.encounters
      | _ => true) &&
      setActiveExisting rng rest (step call.2 rng call.1 w)

/-- The stats are rolled, a monster of skill 1 and stamina 2 is added, a second
monster is added and removed, the first is made active again, and one round is
fought without luck. -/
def fightCalls : List (String × Op) :=
  [("t0", Op.rollInitialStats),
    ("t1", Op.addEncounter "m1" (some "Imp") (some 1) (some 2)),
    ("t2", Op.addEncounter "m2" (some "Rat") (some 5) (some 3)),
    ("t3", Op.removeEncounter "m2"),
    ("t4", Op.setActiveEncounter "m1"),
    ("t5", Op.combatRound false)]

/-! ## The other writers of the player stats, and the states the program holds -/

/-- `wizardRollSkill()`, with the die `d` the animation settles on. -/
def wizardRollSkill (d : Int) (w : World) : World :=
  { w with
    state :=
      { w.state with
        player :=
          { w.state.player with skill := { initial := some (d + 6), current := some (d + 6) } } } }

/-- `wizardRollStamina()`, with the two dice the animations settle on. -/
def wizardRollStamina (d1 d2 : Int) (w : World) : World :=
  { w with
    state :=
      { w.state with
        player :=
          { w.state.player with
            stamina := { initial := some (d1 + d2 + 12), current := some (d1 + d2 + 12) } } } }

/-- `wizardRollLuck()`, with the die `d` the animation settles on. -/
def wizardRollLuck (d : Int) (w : World) : World :=
  { w with
    state :=
      { w.state with
        player :=
          { w.state.player with luck := { initial := some (d + 6), current := some (d + 6) } } } }

/-- The key of a stat, as the stepper buttons pass it to `adjustStat`. -/
inductive StatKey where
  | skill
  | stamina
  | luck
  deriving DecidableEq, Repr

/-- The assignment of `adjustStat`: `current = clamp(current + delta, 0, initial)`. -/
def bumpStat (delta : Int) (st : Stat) : Stat :=
  { st with current := some (clamp (toNumber st.current + delta) 0 (toNumber st.initial)) }

/-- `adjustStat(key, delta)` of the stepper buttons. -/
def adjustStat (key : StatKey) (delta : Int) (w : World) : World :=
  if !hasStatsRolled w.state then w
  else
    { w with
      state :=
        { w.state with
          player :=
            match key with
            | StatKey.skill => { w.state.player with skill := bumpStat delta w.state.player.skill }
            | StatKey.stamina =>
              { w.state.player with stamina := bumpStat delta w.state.player.stamina }
            | StatKey.luck => { w.state.player with luck := bumpStat delta w.state.player.luck } } }

/-- The three player stats are already capped: `enforceCaps` leaves each of them
as it is. Every state the program holds is so: the default state, every state
`enforceCaps` returns, as at the end of loading, and every state an operation
makes from such a state. -/
def statsCapped (p : Player) : Bool :=
  decide (capStat p.skill = p.skill) && decide (capStat p.stamina = p.stamina) &&
    decide (capStat p.luck = p.luck)

/-- A loadable sheet outside the stat bounds: stamina 0 of -5, which `enforceCaps`
leaves as it is. -/
def negStaminaState : GameState :=
  { sampleState with
    player := { sampleState.player with stamina := { initial := some (-5), current := some 0 } } }

/-! # Theorems -/

/-! ## Lemmas on clamping -/

theorem clamp_eq_self {n hi : Int} (h0 : 0 ≤ n) (h1 : n ≤ hi) : clamp n 0 hi = n := by
  unfold clamp; omega

theorem clamp_bounds {n hi : Int} (h : 0 ≤ hi) : 0 ≤ clamp n 0 hi ∧ clamp n 0 hi ≤ hi := by
  unfold clamp; omega

theorem clamp_idem (n hi : Int) : clamp (clamp n 0 hi) 0 hi = clamp n 0 hi := by
  unfold clamp; omega

theorem capStat_of_bounds {st : Stat} (h : statBounds st = true) : capStat st = st := by
  obtain ⟨i, c⟩ := st
  cases i <;> cases c <;> simp_all [statBounds, capStat]
  exact clamp_eq_self h.1 h.2

theorem enforceCaps_player_stats {s : GameState} (h : playerBounds s.player = true) :
    (enforceCaps s).player.skill = s.player.skill ∧
      (enforceCaps s).player.stamina = s.player.stamina ∧
      (enforceCaps s).player.luck = s.player.luck := by
  simp only [playerBounds, Bool.and_eq_true] at h
  simp [enforceCaps, capStat_of_bounds h.1.1, capStat_of_bounds h.1.2, capStat_of_bounds h.2]

theorem statBounds_capStat (st : Stat) (h : initNonneg st = true) :
    statBounds (capStat st) = true := by
  obtain ⟨i, c⟩ := st
  cases i <;> cases c <;> simp_all [statBounds, capStat, initNonneg]
  exact clamp_bounds h

theorem statBounds_setClamp (st : Stat) (x : Int) (h : initNonneg st = true) :
    statBounds { st with current := some (clamp x 0 (toNumber st.initial)) } = true := by
  obtain ⟨i, c⟩ := st
  cases i <;> simp_all [statBounds, initNonneg, toNumber]
  exact clamp_bounds h

/-! ## Lemmas on the invariant -/

theorem statsInv_iff (s : GameState) :
    statsInv s = true ↔
      statBounds s.player.skill = true ∧ statBounds s.player.stamina = true ∧
        statBounds s.player.luck = true ∧ ∀ e ∈ s.encounters, statBounds e.stamina = true := by
  simp [statsInv, playerBounds, and_assoc]

theorem initialsNonneg_iff (s : GameState) :
    initialsNonneg s = true ↔
      initNonneg s.player.skill = true ∧ initNonneg s.player.stamina = true ∧
        initNonneg s.player.luck = true ∧ ∀ e ∈ s.encounters, initNonneg e.stamina = true := by
  simp [initialsNonneg, and_assoc]

theorem mem_updateEncounter {id : String} {f : Encounter → Encounter} {es : List Encounter}
    {x : Encounter} (h : x ∈ updateEncounter id f es) : x ∈ es ∨ ∃ e ∈ es, x = f e := by
  induction es with
  | nil => simp [updateEncounter] at h
  | cons e es ih =>
    unfold updateEncounter at h
    split at h
    · rcases List.mem_cons.1 h with h | h
      · exact Or.inr ⟨e, List.mem_cons_self _ _, h⟩
      · exact Or.inl (List.mem_cons_of_mem _ h)
    · rcases List.mem_cons.1 h with h | h
      · exact Or.inl (h ▸ List.mem_cons_self _ _)
      · rcases ih h with h | ⟨y, hy, rfl⟩
        · exact Or.inl (List.mem_cons_of_mem _ h)
        · exact Or.inr ⟨y, List.mem_cons_of_mem _ hy, rfl⟩

theorem statBounds_hitEncounter (dmg : Int) (e : Encounter) (h : initNonneg e.stamina = true) :
    statBounds (hitEncounter dmg e).stamina = true :=
  statBounds_setClamp e.stamina _ h

theorem statsInv_enforceCaps {s : GameState} (h : statsInv s = true) :
    statsInv (enforceCaps s) = true := by
  have hp : playerBounds s.player = true := by
    simp only [statsInv, Bool.and_eq_true] at h; exact h.1
  obtain ⟨h1, h2, h3⟩ := enforceCaps_player_stats hp
  rw [statsInv_iff] at h ⊢
  rw [h1, h2, h3]
  exact h

theorem statsInv_logLuck (now msg : String) (s : GameState) :
    statsInv (logLuck now msg s) = statsInv s := rfl

theorem statsInv_logCombat (now msg : String) (s : GameState) :
    statsInv (logCombat now msg s) = statsInv s := rfl

/-! ## Preservation of the stat bounds, operation by operation -/

theorem statsInv_rollInitialStats (rng : Nat → Int) (now : String) (w : World)
    (hd : DiceOk rng) (h : statsInv w.state = true) :
    statsInv (rollInitialStats rng now w).state = true := by
  rw [statsInv_iff] at h ⊢
  have h0 := hd w.drawn
  have h1 := hd (w.drawn + 1)
  have h2 := hd (w.drawn + 1 + 1)
  have h3 := hd (w.drawn + 1 + 1 + 1)
  refine ⟨?_, ?_, ?_, h.2.2.2⟩ <;>
    simp [rollInitialStats, logLuck, rollDie, roll2d6, statBounds] <;> omega

theorem statsInv_eatProvision (now : String) (w : World)
    (h : statsInv w.state = true) (hn : initialsNonneg w.state = true) :
    statsInv (eatProvision now w).state = true := by
  unfold eatProvision
  simp only []
  split
  · exact h
  · split
    · exact h
    · rw [statsInv_iff] at h ⊢
      rw [initialsNonneg_iff] at hn
      exact ⟨h.1, statBounds_setClamp _ _ hn.2.1, h.2.2.1, h.2.2.2⟩

theorem statsInv_testLuck (rng : Nat → Int) (now : String) (w : World)
    (h : statsInv w.state = true) (hn : initialsNonneg w.state = true) :
    statsInv (testLuck rng now w).2.state = true := by
  unfold testLuck
  simp only []
  split
  · exact h
  · rw [statsInv_iff] at h ⊢
    rw [initialsNonneg_iff] at hn
    exact ⟨h.1, h.2.1, statBounds_setClamp _ _ hn.2.2.1, h.2.2.2⟩

theorem statBounds_restore (st : Stat) (h : initNonneg st = true) :
    statBounds { st with current := st.initial } = true := by
  obtain ⟨i, c⟩ := st
  cases i <;> simp_all [statBounds, initNonneg]

theorem statsInv_usePotion (now : String) (w : World)
    (h : statsInv w.state = true) (hn : initialsNonneg w.state = true) :
    statsInv (usePotion now w).state = true := by
  unfold usePotion
  simp only []
  split
  · exact h
  · split
    · exact h
    · split
      · exact h
      · apply statsInv_enforceCaps
        rw [statsInv_iff] at h ⊢
        rw [initialsNonneg_iff] at hn
        split
        · exact ⟨statBounds_restore _ hn.1, h.2.1, h.2.2.1, h.2.2.2⟩
        · split
          · exact ⟨h.1, statBounds_restore _ hn.2.1, h.2.2.1, h.2.2.2⟩
          · split
            · refine ⟨h.1, h.2.1, ?_, h.2.2.2⟩
              have := hn.2.2.1
              cases hl : w.state.player.luck.initial <;>
                simp_all [statBounds, initNonneg, logLuck]
              omega
            · exact h

theorem all_statBounds_update (id : String) (f : Encounter → Encounter) (es : List Encounter)
    (hf : ∀ e ∈ es, statBounds (f e).stamina = true)
    (h : ∀ e ∈ es, statBounds e.stamina = true) :
    ∀ e ∈ updateEncounter id f es, statBounds e.stamina = true := by
  intro x hx
  rcases mem_updateEncounter hx with hx | ⟨y, hy, rfl⟩
  · exact h x hx
  · exact hf y hy

theorem statsInv_addEncounter (newId : String) (name : Option String) (skill stamina : Option Int)
    (w : World) (h : statsInv w.state = true) :
    statsInv (addEncounter newId name skill stamina w).state = true := by
  unfold addEncounter
  split
  · exact h
  · split
    · exact h
    · split
      · rw [statsInv_iff] at h ⊢
        refine ⟨h.1, h.2.1, h.2.2.1, ?_⟩
        intro e he
        rcases List.mem_cons.1 he with rfl | he
        · simp [newEncounter, statBounds, clamp]; omega
        · exact h.2.2.2 e he
      · exact h

theorem statsInv_damageEncounter (id : String) (dmg : Int) (w : World)
    (h : statsInv w.state = true) (hn : initialsNonneg w.state = true) :
    statsInv (damageEncounter id dmg w).state = true := by
  unfold damageEncounter
  split
  · exact h
  · rw [statsInv_iff] at h ⊢
    rw [initialsNonneg_iff] at hn
    exact ⟨h.1, h.2.1, h.2.2.1, all_statBounds_update _ _ _
      (fun e he => statBounds_hitEncounter dmg e (hn.2.2.2 e he)) h.2.2.2⟩

theorem statsInv_removeEncounter (id : String) (w : World) (h : statsInv w.state = true) :
    statsInv (removeEncounter id w).state = true := by
  rw [statsInv_iff] at h ⊢
  exact ⟨h.1, h.2.1, h.2.2.1, fun e he => h.2.2.2 e (List.mem_filter.1 he).1⟩

theorem statsInv_toggleEncounterEscaped (id : String) (w : World)
    (h : statsInv w.state = true) : statsInv (toggleEncounterEscaped id w).state = true := by
  unfold toggleEncounterEscaped
  split
  · exact h
  · rw [statsInv_iff] at h ⊢
    exact ⟨h.1, h.2.1, h.2.2.1, all_statBounds_update _ _ _ (fun e he => h.2.2.2 e he) h.2.2.2⟩

theorem statsInv_setActiveEncounter (id : String) (w : World) (h : statsInv w.state = true) :
    statsInv (setActiveEncounter id w).state = true := h

theorem statsInv_luckStep (o : Outcome) (rng : Nat → Int) (now : String) (w : World)
    (h : statsInv w.state = true) (hn : initialsNonneg w.state = true) :
    statsInv (luckStep o rng now w).2.state = true ∧
      initialsNonneg (luckStep o rng now w).2.state = true := by
  rw [statsInv_iff] at h ⊢
  rw [initialsNonneg_iff] at hn ⊢
  exact ⟨⟨h.1, h.2.1, statBounds_setClamp _ _ hn.2.2.1, h.2.2.2⟩, hn.1, hn.2.1, hn.2.2.1, hn.2.2.2⟩

theorem statsInv_combatRound (useLuck : Bool) (rng : Nat → Int) (now : String) (w : World)
    (h : statsInv w.state = true) (hn : initialsNonneg w.state = true) :
    statsInv (combatRound useLuck rng now w).1.state = true := by
  unfold combatRound
  simp only []
  split
  · exact h
  · split
    · exact h
    · split
      · exact h
      · apply statsInv_enforceCaps
        generalize hl : (if (useLuck && decide (_ ≠ Outcome.tie)) = true then _ else _) = l
        have hl2 : statsInv l.2.state = true ∧ initialsNonneg l.2.state = true := by
          rw [← hl]
          split
          · exact statsInv_luckStep _ _ _ _ h hn
          · exact ⟨h, hn⟩
        obtain ⟨h3, hn3⟩ := hl2
        rw [statsInv_iff] at h3
        rw [initialsNonneg_iff] at hn3
        split
        · rw [statsInv_logCombat, statsInv_iff]
          exact ⟨h3.1, h3.2.1, h3.2.2.1, all_statBounds_update _ _ _
            (fun e he => statBounds_hitEncounter _ e (hn3.2.2.2 e he)) h3.2.2.2⟩
        · rw [statsInv_logCombat, statsInv_iff]
          exact ⟨h3.1, statBounds_setClamp _ _ hn3.2.1, h3.2.2.1, h3.2.2.2⟩
        · rw [statsInv_logCombat, statsInv_iff]
          exact h3

/-! ## C1: the stat-bounds invariant -/

/-- C1, as stated, fails: the state `mixedState` satisfies the stat bounds (its
stamina has no current value), yet after `eatProvision` its stamina is 0 of -3. -/
theorem stat_bounds_broken_by_eatProvision :
    DiceOk (fun _ => 1) ∧ statsInv mixedState = true ∧
      (step Op.eatProvision (fun _ => 1) "" ⟨mixedState, 0⟩).state.player.stamina =
        { initial := some (-3), current := some 0 } ∧
      statsInv (step Op.eatProvision (fun _ => 1) "" ⟨mixedState, 0⟩).state = false := by
  refine ⟨fun _ => by norm_num, by decide, by decide, by decide⟩

/-- C1, amended: from a state that satisfies the stat bounds and whose set
initial values are all non-negative, every engine operation, with any dice in
1..6 and any arguments, leads to a state that satisfies the stat bounds. -/
theorem stat_bounds_preserved (op : Op) (rng : Nat → Int) (now : String) (w : World)
    (hd : DiceOk rng) (h : statsInv w.state = true) (hn : initialsNonneg w.state = true) :
    statsInv (step op rng now w).state = true := by
  cases op with
  | rollInitialStats => exact statsInv_rollInitialStats rng now w hd h
  | eatProvision => exact statsInv_eatProvision now w h hn
  | testLuck => exact statsInv_testLuck rng now w h hn
  | usePotion => exact statsInv_usePotion now w h hn
  | addEncounter newId name skill stamina =>
    exact statsInv_addEncounter newId name skill stamina w h
  | damageEncounter id dmg => exact statsInv_damageEncounter id dmg w h hn
  | removeEncounter id => exact statsInv_removeEncounter id w h
  | toggleEncounterEscaped id => exact statsInv_toggleEncounterEscaped id w h
  | setActiveEncounter id => exact statsInv_setActiveEncounter id w h
  | combatRound useLuck => exact statsInv_combatRound useLuck rng now w h hn

/-- Witness for C1: a combat round with luck on the sample state. -/
theorem stat_bounds_preserved_witness :
    DiceOk (fun _ => 4) ∧ statsInv sampleWorld.state = true ∧
      initialsNonneg sampleWorld.state = true ∧
      statsInv (step (Op.combatRound true) (fun _ => 4) "t" sampleWorld).state = true :=
  ⟨fun _ => by norm_num, by decide, by decide,
    stat_bounds_preserved (Op.combatRound true) (fun _ => 4) "t" sampleWorld
      (fun _ => by norm_num) (by decide) (by decide)⟩

/-! ## Projection lemmas -/

@[simp] theorem rollDie_state (rng : Nat → Int) (w : World) : (rollDie rng w).2.state = w.state :=
  rfl

@[simp] theorem roll2d6_state (rng : Nat → Int) (w : World) : (roll2d6 rng w).2.state = w.state :=
  rfl

@[simp] theorem roll2d6_drawn (rng : Nat → Int) (w : World) :
    (roll2d6 rng w).2.drawn = w.drawn + 2 := rfl

@[simp] theorem roll2d6_value (rng : Nat → Int) (w : World) :
    (roll2d6 rng w).1 = rng w.drawn + rng (w.drawn + 1) := rfl

@[simp] theorem enforceCaps_encounters (s : GameState) :
    (enforceCaps s).encounters = s.encounters := rfl

@[simp] theorem enforceCaps_activeEncounterId (s : GameState) :
    (enforceCaps s).activeEncounterId = s.activeEncounterId := rfl

@[simp] theorem enforceCaps_logs (s : GameState) : (enforceCaps s).logs = s.logs := rfl

@[simp] theorem enforceCaps_skill (s : GameState) :
    (enforceCaps s).player.skill = capStat s.player.skill := rfl

@[simp] theorem enforceCaps_stamina (s : GameState) :
    (enforceCaps s).player.stamina = capStat s.player.stamina := rfl

@[simp] theorem enforceCaps_luck (s : GameState) :
    (enforceCaps s).player.luck = capStat s.player.luck := rfl

@[simp] theorem enforceCaps_potion (s : GameState) :
    (enforceCaps s).player.potion = s.player.potion := rfl

@[simp] theorem logCombat_player (now msg : String) (s : GameState) :
    (logCombat now msg s).player = s.player := rfl

@[simp] theorem logCombat_encounters (now msg : String) (s : GameState) :
    (logCombat now msg s).encounters = s.encounters := rfl

@[simp] theorem logCombat_activeEncounterId (now msg : String) (s : GameState) :
    (logCombat now msg s).activeEncounterId = s.activeEncounterId := rfl

@[simp] theorem luckStep_encounters (o : Outcome) (rng : Nat → Int) (now : String) (w : World) :
    (luckStep o rng now w).2.state.encounters = w.state.encounters := rfl

@[simp] theorem luckStep_skill (o : Outcome) (rng : Nat → Int) (now : String) (w : World) :
    (luckStep o rng now w).2.state.player.skill = w.state.player.skill := rfl

@[simp] theorem luckStep_stamina (o : Outcome) (rng : Nat → Int) (now : String) (w : World) :
    (luckStep o rng now w).2.state.player.stamina = w.state.player.stamina := rfl

@[simp] theorem luckStep_luck (o : Outcome) (rng : Nat → Int) (now : String) (w : World) :
    (luckStep o rng now w).2.state.player.luck =
      { w.state.player.luck with
        current := some (clamp (toNumber w.state.player.luck.current - 1) 0
          (toNumber w.state.player.luck.initial)) } := rfl

@[simp] theorem luckStep_damage (o : Outcome) (rng : Nat → Int) (now : String) (w : World) :
    (luckStep o rng now w).1 =
      if o = Outcome.player then
        (if (roll2d6 rng w).1 ≤ toNumber w.state.player.luck.current then 4 else 1)
      else (if (roll2d6 rng w).1 ≤ toNumber w.state.player.luck.current then 1 else 3) := by
  simp [luckStep]

@[simp] theorem luckStep_drawn (o : Outcome) (rng : Nat → Int) (now : String) (w : World) :
    (luckStep o rng now w).2.drawn = w.drawn + 2 := rfl

theorem capStat_setClamp (st : Stat) (x : Int) (h : st.initial.isSome = true) :
    capStat { st with current := some (clamp x 0 (toNumber st.initial)) } =
      { st with current := some (clamp x 0 (toNumber st.initial)) } := by
  obtain ⟨i, c⟩ := st
  cases i <;> simp_all [capStat, clamp_idem, toNumber]

theorem rolled_iff (s : GameState) :
    hasStatsRolled s = true ↔
      s.player.skill.initial.isSome = true ∧ s.player.stamina.initial.isSome = true ∧
        s.player.luck.initial.isSome = true := by
  simp [hasStatsRolled, isFinite]

theorem statsCapped_iff (p : Player) :
    statsCapped p = true ↔
      capStat p.skill = p.skill ∧ capStat p.stamina = p.stamina ∧ capStat p.luck = p.luck := by
  simp [statsCapped, and_assoc]

/-! ## C2: luck never changes who won -/

theorem outcomeOf_player (a b : Int) : outcomeOf a b = Outcome.player ↔ a > b := by
  unfold outcomeOf
  by_cases h1 : a > b
  · simp [h1]
  · by_cases h2 : b > a <;> simp [h1, h2]

theorem outcomeOf_monster (a b : Int) : outcomeOf a b = Outcome.monster ↔ a < b := by
  unfold outcomeOf
  by_cases h1 : a > b
  · simp [h1]; omega
  · by_cases h2 : b > a
    · simp [h1, h2]
    · simp [h1, h2]

theorem outcomeOf_tie (a b : Int) : outcomeOf a b = Outcome.tie ↔ a = b := by
  unfold outcomeOf
  by_cases h1 : a > b
  · simp [h1]; omega
  · by_cases h2 : b > a
    · simp [h1, h2]; omega
    · simp [h1, h2]; omega

theorem sampleDice_ok : DiceOk sampleDice := by
  intro i
  unfold sampleDice
  rcases Nat.lt_or_ge i 6 with h | h
  · interval_cases i <;> decide
  · rw [List.getD_eq_default _ _ (by simpa using h)]; decide

/-- The stats have to be capped for the side that took no damage to keep its
stamina. `overfullState`, stamina 50 of 20, is a state no operation and no load
produces; there the player wins the round (attack strength 16 against 11) with
and without luck, and the closing `enforceCaps` of both runs changes the
player's stamina from 50 to 20. -/
theorem luck_other_side_changed :
    CombatReady ⟨overfullState, 0⟩ sampleEncounter ∧
      (∀ useLuck : Bool,
        ((combatRound useLuck sampleDice "" ⟨overfullState, 0⟩).2.map RoundReport.outcome =
            some Outcome.player) ∧
          (combatRound useLuck sampleDice "" ⟨overfullState, 0⟩).1.state.player.stamina.current =
            some 20) ∧
      overfullState.player.stamina.current = some 50 := by
  refine ⟨⟨by decide, by decide, by decide⟩, ?_, rfl⟩
  intro useLuck
  cases useLuck <;> exact ⟨by decide, by decide⟩

/-- C2: in every state the program holds (its player stats are capped, as in
the default state, every loaded state and every state an operation makes from
one) that passes the preconditions of `combatRound`, the outcome of a round is
the same with and without luck on the same dice: player iff the player's attack
strength is greater, monster iff it is smaller, tie iff equal. In both runs a
player win damages only the encounter (the player's stamina is unchanged), a
monster win damages only the player's stamina (the registry is unchanged), and
a tie changes neither. -/
theorem luck_never_changes_winner (rng : Nat → Int) (now : String) (w : World) (enc : Encounter)
    (hc : CombatReady w enc) (hb : statsCapped w.state.player = true) :
    ∃ o : Outcome,
      (o = Outcome.player ↔ playerASOf rng w > monsterASOf rng w enc) ∧
      (o = Outcome.monster ↔ playerASOf rng w < monsterASOf rng w enc) ∧
      (o = Outcome.tie ↔ playerASOf rng w = monsterASOf rng w enc) ∧
      ∀ useLuck : Bool, ∃ rep : RoundReport,
        (combatRound useLuck rng now w).2 = some rep ∧ rep.outcome = o ∧
        (o = Outcome.player →
          (combatRound useLuck rng now w).1.state.encounters =
              updateEncounter enc.id (hitEncounter rep.damage) w.state.encounters ∧
            (combatRound useLuck rng now w).1.state.player.stamina = w.state.player.stamina) ∧
        (o = Outcome.monster →
          (combatRound useLuck rng now w).1.state.player.stamina =
              { w.state.player.stamina with
                current := some (clamp (toNumber w.state.player.stamina.current - rep.damage) 0
                  (toNumber w.state.player.stamina.initial)) } ∧
            (combatRound useLuck rng now w).1.state.encounters = w.state.encounters) ∧
        (o = Outcome.tie →
          (combatRound useLuck rng now w).1.state.player.stamina = w.state.player.stamina ∧
            (combatRound useLuck rng now w).1.state.encounters = w.state.encounters) := by
  obtain ⟨hr, he, hs⟩ := hc
  refine ⟨outcomeOf (playerASOf rng w) (monsterASOf rng w enc), outcomeOf_player _ _,
    outcomeOf_monster _ _, outcomeOf_tie _ _, ?_⟩
  intro useLuck
  have hi := ((rolled_iff _).1 hr).2.1
  have hsta := ((statsCapped_iff _).1 hb).2.1
  unfold combatRound
  simp only [hr, he, hs]
  simp only [playerASOf, monsterASOf, playerRollOf, monsterRollOf]
  rcases ho : outcomeOf ((roll2d6 rng w).1 + toNumber w.state.player.skill.current)
      ((roll2d6 rng (roll2d6 rng w).2).1 + enc.skill) with _ | _ | _
  · simp [ho, hsta]
  · cases useLuck <;> simp [ho, hsta]
  · cases useLuck <;> simp [ho, hsta, capStat_setClamp _ _ hi]

/-- Witness for C2: the sample state and dice, attack strength 16 against 11. -/
theorem luck_never_changes_winner_witness :
    CombatReady sampleWorld sampleEncounter ∧ statsCapped sampleWorld.state.player = true ∧
      ∃ o : Outcome,
        (o = Outcome.player ↔
          playerASOf sampleDice sampleWorld > monsterASOf sampleDice sampleWorld sampleEncounter) ∧
        ∀ useLuck : Bool, ∃ rep : RoundReport,
          (combatRound useLuck sampleDice "t" sampleWorld).2 = some rep ∧ rep.outcome = o := by
  obtain ⟨o, h1, _, _, h4⟩ :=
    luck_never_changes_winner sampleDice "t" sampleWorld sampleEncounter
      ⟨by decide, by decide, by decide⟩ (by decide)
  refine ⟨⟨by decide, by decide, by decide⟩, by decide, o, h1, fun u => ?_⟩
  obtain ⟨rep, a, b, _⟩ := h4 u
  exact ⟨rep, a, b⟩

/-! ## C3: a combat round with the luck bonus -/

theorem findEncounter_id {id : String} {es : List Encounter} {e : Encounter}
    (h : findEncounter id es = some e) : e.id = id := by
  have := List.find?_some h
  simpa using this

theorem findActiveEncounter_id {s : GameState} {e : Encounter}
    (h : findActiveEncounter s = some e) :
    s.activeEncounterId = some e.id ∧ findEncounter e.id s.encounters = some e := by
  unfold findActiveEncounter at h
  split at h
  · simp at h
  · next a ha =>
    have := findEncounter_id h
    subst this
    exact ⟨ha, h⟩

theorem findEncounter_update (id : String) (f : Encounter → Encounter)
    (hf : ∀ e, (f e).id = e.id) (es : List Encounter) :
    findEncounter id (updateEncounter id f es) = (findEncounter id es).map f := by
  induction es with
  | nil => rfl
  | cons e es ih =>
    unfold updateEncounter
    by_cases h : (e.id == id) = true
    · simp [h, findEncounter, List.find?_cons, hf]
    · rw [if_neg h]
      simp only [findEncounter, List.find?_cons, h] at ih ⊢
      exact ih

theorem luck_after (st : Stat) (hi : st.initial.isSome = true) (hb : statBounds st = true) :
    capStat { st with current := some (clamp (toNumber st.current - 1) 0 (toNumber st.initial)) } =
      { st with current := some (max 0 (toNumber st.current - 1)) } := by
  obtain ⟨i, c⟩ := st
  cases i with
  | none => simp at hi
  | some i =>
    cases c with
    | none => simp [capStat, toNumber, clamp]
    | some c =>
      simp [statBounds] at hb
      simp [capStat, toNumber, clamp]; omega

/-- C3: from a state that passes the preconditions of `combatRound` and satisfies
the stat bounds, and for dice with a non-tie outcome, `combatRound(true)` draws
the luck roll after the two attack rolls, is lucky iff that roll is at most the
luck before the call, leaves luck at `max(0, luck - 1)` either way, and applies
damage 4 if lucky else 1 to the active encounter's stamina when the player won,
or damage 1 if lucky else 3 to the player's stamina when the monster won, each
clamped by `clamp(current - damage, 0, initial)`. -/
theorem combat_round_with_luck (rng : Nat → Int) (now : String) (w : World) (enc : Encounter)
    (hc : CombatReady w enc) (hinv : statsInv w.state = true)
    (hne : playerASOf rng w ≠ monsterASOf rng w enc) :
    (combatRound true rng now w).1.drawn = w.drawn + 6 ∧
      (combatRound true rng now w).1.state.player.luck.current =
        some (max 0 (toNumber w.state.player.luck.current - 1)) ∧
      (playerASOf rng w > monsterASOf rng w enc →
        (combatRound true rng now w).2.map RoundReport.damage =
            some (if luckyOf rng w then 4 else 1) ∧
          (combatRound true rng now w).1.state.encounters =
            updateEncounter enc.id (hitEncounter (if luckyOf rng w then 4 else 1))
              w.state.encounters ∧
          (∃ e, findEncounter enc.id (combatRound true rng now w).1.state.encounters = some e ∧
            e.stamina.current =
              some (clamp (toNumber enc.stamina.current - (if luckyOf rng w then 4 else 1)) 0
                (toNumber enc.stamina.initial)))) ∧
      (playerASOf rng w < monsterASOf rng w enc →
        (combatRound true rng now w).2.map RoundReport.damage =
            some (if luckyOf rng w then 1 else 3) ∧
          (combatRound true rng now w).1.state.player.stamina.current =
            some (clamp (toNumber w.state.player.stamina.current -
              (if luckyOf rng w then 1 else 3)) 0 (toNumber w.state.player.stamina.initial))) := by
  obtain ⟨hr, he, hs⟩ := hc
  obtain ⟨-, hfind⟩ := findActiveEncounter_id he
  have hi := (rolled_iff _).1 hr
  rw [statsInv_iff] at hinv
  have hluck := luck_after _ hi.2.2 hinv.2.2.1
  have hupd : ∀ d, findEncounter enc.id (updateEncounter enc.id (hitEncounter d) w.state.encounters) =
      some (hitEncounter d enc) := by
    intro d
    rw [findEncounter_update enc.id (hitEncounter d) (fun _ => rfl), hfind]; rfl
  unfold combatRound
  simp only [hr, he, hs]
  simp only [playerASOf, monsterASOf, playerRollOf, monsterRollOf] at hne ⊢
  rcases ho : outcomeOf ((roll2d6 rng w).1 + toNumber w.state.player.skill.current)
      ((roll2d6 rng (roll2d6 rng w).2).1 + enc.skill) with _ | _ | _
  · exact absurd ((outcomeOf_tie _ _).1 ho) hne
  · have hgt := (outcomeOf_player _ _).1 ho
    simp [ho, hluck, hupd, luckyOf, luckRollOf, hitEncounter]
    intro h
    simp only [roll2d6_value, roll2d6_drawn] at hgt
    omega
  · have hlt := (outcomeOf_monster _ _).1 ho
    simp [ho, hluck, luckyOf, luckRollOf, capStat_setClamp _ _ hi.2.1]
    intro h
    simp only [roll2d6_value, roll2d6_drawn] at hlt
    omega

/-- Witness for C3 (scenario E): player roll 6 + skill 10 against monster roll
3 + skill 8, luck roll 2 with luck 10: the test is lucky, the encounter takes
damage 4 (stamina 8 becomes 4) and luck becomes 9. -/
theorem combat_round_with_luck_witness :
    CombatReady sampleWorld sampleEncounter ∧ statsInv sampleWorld.state = true ∧
      playerASOf sampleDice sampleWorld = 16 ∧
      monsterASOf sampleDice sampleWorld sampleEncounter = 11 ∧
      luckRollOf sampleDice sampleWorld = 2 ∧ luckyOf sampleDice sampleWorld = true ∧
      (combatRound true sampleDice "t" sampleWorld).1.state.player.luck.current = some 9 ∧
      (combatRound true sampleDice "t" sampleWorld).2.map RoundReport.damage = some 4 ∧
      ((combatRound true sampleDice "t" sampleWorld).1.state.encounters.map
        (fun e => e.stamina.current)) = [some 4] := by
  have h := combat_round_with_luck sampleDice "t" sampleWorld sampleEncounter
    ⟨by decide, by decide, by decide⟩ (by decide) (by decide)
  have h3 := h.2.2.1 (by decide)
  refine ⟨⟨by decide, by decide, by decide⟩, by decide, by decide, by decide, by decide, by decide,
    ?_, ?_, ?_⟩
  · rw [h.2.1]; decide
  · rw [h3.1]; decide
  · rw [h3.2.1]; decide

/-! ## C4: a combat round without the luck bonus, and ties -/

/-- The stats have to be capped for a tie to change nothing. `overfullState`,
stamina 50 of 20, is a state no operation and no load produces; it passes the
preconditions, the dice give a tie (attack strength 12 against 12), and the
closing `enforceCaps` changes the player's stamina from 50 to 20, with and
without luck. -/
theorem tie_changes_stamina :
    CombatReady ⟨overfullState, 0⟩ sampleEncounter ∧
      playerASOf tieDice ⟨overfullState, 0⟩ = monsterASOf tieDice ⟨overfullState, 0⟩ sampleEncounter ∧
      overfullState.player.stamina.current = some 50 ∧
      (combatRound false tieDice "" ⟨overfullState, 0⟩).1.state.player.stamina.current = some 20 ∧
      (combatRound true tieDice "" ⟨overfullState, 0⟩).1.state.player.stamina.current = some 20 := by
  refine ⟨⟨by decide, by decide, by decide⟩, by decide, by decide, by decide, by decide⟩

/-- C4: in every state the program holds (its player stats are capped, as in
the default state, every loaded state and every state an operation makes from
one) that passes the preconditions of `combatRound`, `combatRound(false)` with the
player's attack strength greater sets the active encounter's stamina to
`clamp(current - 2, 0, initial)`, marks it defeated exactly when that is 0, and
leaves the three player stats unchanged; with the monster's greater it sets the
player's stamina to `clamp(current - 2, 0, initial)` and leaves the registry
unchanged; and on equal attack strengths, with either value of `useLuck`, no
stat of the player and no encounter changes and only the four attack dice are
drawn. -/
theorem combat_round_without_luck (rng : Nat → Int) (now : String) (w : World) (enc : Encounter)
    (hc : CombatReady w enc) (hb : statsCapped w.state.player = true) :
    (playerASOf rng w > monsterASOf rng w enc →
      (combatRound false rng now w).1.state.encounters =
          updateEncounter enc.id (hitEncounter 2) w.state.encounters ∧
        (∃ e, findEncounter enc.id (combatRound false rng now w).1.state.encounters = some e ∧
          e.stamina.current =
            some (clamp (toNumber enc.stamina.current - 2) 0 (toNumber enc.stamina.initial)) ∧
          (e.status = "defeated" ↔
            clamp (toNumber enc.stamina.current - 2) 0 (toNumber enc.stamina.initial) = 0)) ∧
        (combatRound false rng now w).1.state.player.skill = w.state.player.skill ∧
        (combatRound false rng now w).1.state.player.stamina = w.state.player.stamina ∧
        (combatRound false rng now w).1.state.player.luck = w.state.player.luck) ∧
      (monsterASOf rng w enc > playerASOf rng w →
        (combatRound false rng now w).1.state.player.stamina.current =
            some (clamp (toNumber w.state.player.stamina.current - 2) 0
              (toNumber w.state.player.stamina.initial)) ∧
          (combatRound false rng now w).1.state.encounters = w.state.encounters) ∧
      (playerASOf rng w = monsterASOf rng w enc → ∀ useLuck : Bool,
        (combatRound useLuck rng now w).1.state.player.skill = w.state.player.skill ∧
          (combatRound useLuck rng now w).1.state.player.stamina = w.state.player.stamina ∧
          (combatRound useLuck rng now w).1.state.player.luck = w.state.player.luck ∧
          (combatRound useLuck rng now w).1.state.encounters = w.state.encounters ∧
          (combatRound useLuck rng now w).1.drawn = w.drawn + 4) := by
  obtain ⟨hr, he, hs⟩ := hc
  obtain ⟨-, hfind⟩ := findActiveEncounter_id he
  have hi := (rolled_iff _).1 hr
  rw [statsCapped_iff] at hb
  have h1 := hb.1
  have h2 := hb.2.1
  have h3 := hb.2.2
  have hupd : findEncounter enc.id (updateEncounter enc.id (hitEncounter 2) w.state.encounters) =
      some (hitEncounter 2 enc) := by
    rw [findEncounter_update enc.id (hitEncounter 2) (fun _ => rfl), hfind]; rfl
  unfold combatRound
  simp only [hr, he, hs]
  simp only [playerASOf, monsterASOf, playerRollOf, monsterRollOf]
  rcases ho : outcomeOf ((roll2d6 rng w).1 + toNumber w.state.player.skill.current)
      ((roll2d6 rng (roll2d6 rng w).2).1 + enc.skill) with _ | _ | _
  · have hh := (outcomeOf_tie _ _).1 ho
    simp only [roll2d6_value, roll2d6_drawn] at hh
    simp [ho, h1, h2, h3]
    refine ⟨?_, ?_⟩ <;> intro h <;> omega
  · have hh := (outcomeOf_player _ _).1 ho
    simp only [roll2d6_value, roll2d6_drawn] at hh
    simp [ho, h1, h2, h3, hupd, hitEncounter, hs]
    exact ⟨fun h => by omega, by omega⟩
  · have hh := (outcomeOf_monster _ _).1 ho
    simp only [roll2d6_value, roll2d6_drawn] at hh
    simp [ho, h1, h2, h3, capStat_setClamp _ _ hi.2.1]
    exact ⟨fun h => by omega, by omega⟩

/-- Witness for C4 (scenario D): player roll 6 + skill 10 against monster roll
3 + skill 8 without luck: the encounter's stamina 8 becomes 6 and the player's
stamina stays 20 of 20. -/
theorem combat_round_without_luck_witness :
    CombatReady sampleWorld sampleEncounter ∧ statsCapped sampleWorld.state.player = true ∧
      playerASOf sampleDice sampleWorld = 16 ∧
      monsterASOf sampleDice sampleWorld sampleEncounter = 11 ∧
      ((combatRound false sampleDice "t" sampleWorld).1.state.encounters.map
        (fun e => (e.stamina.current, e.status))) = [(some 6, "active")] ∧
      (combatRound false sampleDice "t" sampleWorld).1.state.player.stamina =
        { initial := some 20, current := some 20 } := by
  have h := (combat_round_without_luck sampleDice "t" sampleWorld sampleEncounter
    ⟨by decide, by decide, by decide⟩ (by decide)).1 (by decide)
  refine ⟨⟨by decide, by decide, by decide⟩, by decide, by decide, by decide, ?_, ?_⟩
  · rw [h.1]; decide
  · rw [h.2.2.2.1]; decide

/-! ## C5: failures are log-only -/

theorem luckLogOnly_logLuck (now msg : String) (w : World) :
    LuckLogOnly w { w with state := logLuck now msg w.state } :=
  ⟨rfl, rfl, rfl, rfl, rfl, ⟨_, rfl⟩, rfl, rfl⟩

theorem combatLogOnly_logCombat (now msg : String) (w : World) :
    CombatLogOnly w { w with state := logCombat now msg w.state } :=
  ⟨rfl, rfl, rfl, rfl, rfl, ⟨_, rfl⟩, rfl, rfl⟩

theorem findActiveEncounter_none {s : GameState}
    (h : s.activeEncounterId = none ∨ ∀ e ∈ s.encounters, s.activeEncounterId ≠ some e.id) :
    findActiveEncounter s = none := by
  unfold findActiveEncounter
  split
  · rfl
  · next a ha =>
    rcases h with h | h
    · rw [h] at ha; cases ha
    · simp only [findEncounter, List.find?_eq_none]
      intro e he hid
      apply h e he
      have hid2 : e.id = a := by simpa using hid
      rw [ha, hid2]

/-- C5: every precondition failure leaves the sheet and the registry unchanged,
draws no die, and adds exactly one entry to one log, the combat log for
`combatRound` and the luck log otherwise: the four operations on unrolled stats,
`eatProvision` with no provisions left, `usePotion` with the potion used or with
choice none, `combatRound` with the active id unset or dangling, and
`combatRound` on an active encounter whose status is not active. On the failure
`testLuck` returns no boolean. -/
theorem failures_are_log_only (rng : Nat → Int) (now : String) (w : World) :
    (hasStatsRolled w.state = false →
      LuckLogOnly w (eatProvision now w) ∧
        LuckLogOnly w (testLuck rng now w).2 ∧ (testLuck rng now w).1 = none ∧
        LuckLogOnly w (usePotion now w) ∧
        ∀ useLuck, CombatLogOnly w (combatRound useLuck rng now w).1) ∧
      (w.state.player.provisions ≤ 0 → LuckLogOnly w (eatProvision now w)) ∧
      (w.state.player.potion.used = true → LuckLogOnly w (usePotion now w)) ∧
      (w.state.player.potion.choice = "none" → LuckLogOnly w (usePotion now w)) ∧
      ((w.state.activeEncounterId = none ∨
          ∀ e ∈ w.state.encounters, w.state.activeEncounterId ≠ some e.id) →
        ∀ useLuck, CombatLogOnly w (combatRound useLuck rng now w).1) ∧
      (∀ enc, findActiveEncounter w.state = some enc → enc.status ≠ "active" →
        ∀ useLuck, CombatLogOnly w (combatRound useLuck rng now w).1) := by
  refine ⟨?_, ?_, ?_, ?_, ?_, ?_⟩
  · intro h
    refine ⟨?_, ?_, ?_, ?_, ?_⟩
    · simp only [eatProvision, h]; exact luckLogOnly_logLuck _ _ _
    · simp only [testLuck, h]; exact luckLogOnly_logLuck _ _ _
    · simp only [testLuck, h]; rfl
    · simp only [usePotion, h]; exact luckLogOnly_logLuck _ _ _
    · intro u; simp only [combatRound, h]; exact combatLogOnly_logCombat _ _ _
  · intro h
    unfold eatProvision
    simp only []
    split
    · exact luckLogOnly_logLuck _ _ _
    · exact luckLogOnly_logLuck _ _ _
  · intro h
    unfold usePotion
    simp only []
    split
    · exact luckLogOnly_logLuck _ _ _
    · exact luckLogOnly_logLuck _ _ _
  · intro h
    unfold usePotion
    simp only []
    split
    · exact luckLogOnly_logLuck _ _ _
    · split
      · exact luckLogOnly_logLuck _ _ _
      · exact luckLogOnly_logLuck _ _ _
  · intro h u
    unfold combatRound
    simp only []
    split
    · exact combatLogOnly_logCombat _ _ _
    · rw [findActiveEncounter_none h]; exact combatLogOnly_logCombat _ _ _
  · intro enc he hs u
    unfold combatRound
    simp only []
    split
    · exact combatLogOnly_logCombat _ _ _
    · rw [he]; simp only []; rw [if_pos hs]; exact combatLogOnly_logCombat _ _ _

/-- Witness for C5: on the default state, whose stats are unrolled,
`eatProvision` only adds the entry "Roll stats first." to the luck log. -/
theorem failures_are_log_only_witness :
    hasStatsRolled createDefaultState = false ∧
      LuckLogOnly ⟨createDefaultState, 0⟩ (eatProvision "t" ⟨createDefaultState, 0⟩) ∧
      (eatProvision "t" ⟨createDefaultState, 0⟩).state.logs.luck = ["[t] Roll stats first."] :=
  ⟨by decide,
    ((failures_are_log_only (fun _ => 1) "t" ⟨createDefaultState, 0⟩).1 (by decide)).1,
    by decide⟩

/-! ## C6: testLuck -/

theorem clamp_luck (st : Stat) (hi : st.initial.isSome = true) (hb : statBounds st = true) :
    clamp (toNumber st.current - 1) 0 (toNumber st.initial) = max 0 (toNumber st.current - 1) := by
  obtain ⟨i, c⟩ := st
  cases i with
  | none => simp at hi
  | some i =>
    cases c with
    | none => simp [toNumber, clamp]
    | some c =>
      simp [statBounds] at hb
      simp [toNumber, clamp]; omega

/-- C6: from a state with rolled stats whose luck satisfies
`0 <= current <= initial`, `testLuck` with the 2d6 result `roll` returns true
iff `roll <= luck.current` as it was before the call, and afterwards
`luck.current` is `max(0, previous - 1)` whatever the result; the initial luck,
skill, stamina, provisions, gold, potion and the encounter registry are
unchanged. -/
theorem testLuck_spec (rng : Nat → Int) (now : String) (w : World)
    (hr : hasStatsRolled w.state = true) (hb : statBounds w.state.player.luck = true) :
    (testLuck rng now w).1 =
        some (decide ((roll2d6 rng w).1 ≤ toNumber w.state.player.luck.current)) ∧
      (testLuck rng now w).2.state.player.luck.current =
        some (max 0 (toNumber w.state.player.luck.current - 1)) ∧
      (testLuck rng now w).2.state.player.luck.initial = w.state.player.luck.initial ∧
      (testLuck rng now w).2.state.player.skill = w.state.player.skill ∧
      (testLuck rng now w).2.state.player.stamina = w.state.player.stamina ∧
      (testLuck rng now w).2.state.player.provisions = w.state.player.provisions ∧
      (testLuck rng now w).2.state.player.gold = w.state.player.gold ∧
      (testLuck rng now w).2.state.player.potion = w.state.player.potion ∧
      (testLuck rng now w).2.state.encounters = w.state.encounters ∧
      (testLuck rng now w).2.state.activeEncounterId = w.state.activeEncounterId := by
  have hi := ((rolled_iff _).1 hr).2.2
  unfold testLuck
  simp only [hr]
  refine ⟨rfl, ?_, rfl, rfl, rfl, rfl, rfl, rfl, rfl, rfl⟩
  simp [logLuck, clamp_luck _ hi hb]

/-- Witness for C6: luck 10 of 10 and a roll of 6: lucky, and luck becomes 9. -/
theorem testLuck_spec_witness :
    hasStatsRolled sampleWorld.state = true ∧ statBounds sampleWorld.state.player.luck = true ∧
      (roll2d6 sampleDice sampleWorld).1 = 6 ∧
      (testLuck sampleDice "t" sampleWorld).1 = some true ∧
      (testLuck sampleDice "t" sampleWorld).2.state.player.luck.current = some 9 := by
  have h := testLuck_spec sampleDice "t" sampleWorld (by decide) (by decide)
  refine ⟨by decide, by decide, by decide, ?_, ?_⟩
  · rw [h.1]; decide
  · rw [h.2.1]; decide

/-! ## C9: usePotion on success -/

/-- C9, as stated, fails: `negSkillState` has rolled stats, satisfies the stat
bounds and holds an unused potion of skill, yet after `usePotion` its skill is
0 of -3, not restored to the initial value. -/
theorem potion_skill_not_restored :
    hasStatsRolled negSkillState = true ∧ statsInv negSkillState = true ∧
      negSkillState.player.potion = { choice := "skill", used := false } ∧
      (usePotion "" ⟨negSkillState, 0⟩).state.player.skill =
        { initial := some (-3), current := some 0 } := by
  refine ⟨by decide, by decide, by decide, by decide⟩

/-- C9, amended: from a state with rolled stats that satisfies the stat bounds
and whose player stats have non-negative initial values, with the potion unused,
`usePotion` applies one effect: choice skill sets `skill.current` to
`skill.initial`; choice strength sets `stamina.current` to `stamina.initial`;
choice fortune raises `luck.initial` by 1 and sets `luck.current` to the new
`luck.initial`. The other two stats are unchanged, `potion.used` becomes true,
no die is drawn, and `usePotion` on any state whose potion is used changes
nothing on the sheet. -/
theorem usePotion_spec (now : String) (w : World)
    (hr : hasStatsRolled w.state = true) (hb : playerBounds w.state.player = true)
    (hn : playerInitialsNonneg w.state.player = true)
    (hu : w.state.player.potion.used = false) :
    (w.state.player.potion.choice = "skill" →
      (usePotion now w).state.player.skill =
          { w.state.player.skill with current := w.state.player.skill.initial } ∧
        (usePotion now w).state.player.stamina = w.state.player.stamina ∧
        (usePotion now w).state.player.luck = w.state.player.luck ∧
        (usePotion now w).state.player.potion.used = true) ∧
      (w.state.player.potion.choice = "strength" →
        (usePotion now w).state.player.stamina =
            { w.state.player.stamina with current := w.state.player.stamina.initial } ∧
          (usePotion now w).state.player.skill = w.state.player.skill ∧
          (usePotion now w).state.player.luck = w.state.player.luck ∧
          (usePotion now w).state.player.potion.used = true) ∧
      (w.state.player.potion.choice = "fortune" →
        (usePotion now w).state.player.luck =
            { initial := some (toNumber w.state.player.luck.initial + 1)
              current := some (toNumber w.state.player.luck.initial + 1) } ∧
          (usePotion now w).state.player.skill = w.state.player.skill ∧
          (usePotion now w).state.player.stamina = w.state.player.stamina ∧
          (usePotion now w).state.player.potion.used = true) ∧
      (usePotion now w).drawn = w.drawn ∧
      (usePotion now w).state.encounters = w.state.encounters ∧
      ∀ (later : String) (v : World), v.state.player.potion.used = true →
        (usePotion later v).state.player = v.state.player := by
  have hi := (rolled_iff _).1 hr
  simp only [playerBounds, Bool.and_eq_true] at hb
  simp only [playerInitialsNonneg, Bool.and_eq_true] at hn
  have h1 := capStat_of_bounds hb.1.1
  have h2 := capStat_of_bounds hb.1.2
  have h3 := capStat_of_bounds hb.2
  have r1 := capStat_of_bounds (statBounds_restore _ hn.1.1)
  have r2 := capStat_of_bounds (statBounds_restore _ hn.1.2)
  refine ⟨?_, ?_, ?_, ?_, ?_, ?_⟩
  · intro hc
    simp [usePotion, hr, hu, hc, logLuck, h2, h3, r1]
  · intro hc
    simp [usePotion, hr, hu, hc, logLuck, h1, h3, r2]
  · intro hc
    have hl := hn.2
    obtain ⟨i, hli⟩ := Option.isSome_iff_exists.1 hi.2.2
    simp [initNonneg, hli] at hl
    have r3 : capStat { initial := some (i + 1), current := some (i + 1) } =
        { initial := some (i + 1), current := some (i + 1) } := by
      simp [capStat, clamp]; omega
    simp [usePotion, hr, hu, hc, logLuck, h1, h2, hli, toNumber, r3]
  · unfold usePotion; simp only []; split_ifs <;> rfl
  · unfold usePotion; simp only []; split_ifs <;> rfl
  · intro later v hv
    unfold usePotion
    simp only []
    split
    · rfl
    · rfl

/-- Witness for C9 (scenario B): skill 10 of 10, potion of skill unused:
`skill.current` stays 10 and `potion.used` becomes true. -/
theorem usePotion_spec_witness :
    hasStatsRolled sampleWorld.state = true ∧ playerBounds sampleWorld.state.player = true ∧
      playerInitialsNonneg sampleWorld.state.player = true ∧
      sampleWorld.state.player.potion = { choice := "skill", used := false } ∧
      (usePotion "t" sampleWorld).state.player.skill =
        { initial := some 10, current := some 10 } ∧
      (usePotion "t" sampleWorld).state.player.potion.used = true := by
  have h := (usePotion_spec "t" sampleWorld (by decide) (by decide) (by decide) (by decide)).1
    (by decide)
  refine ⟨by decide, by decide, by decide, by decide, ?_, h.2.2.2⟩
  rw [h.1]; decide

/-! ## C10: damageEncounter -/

theorem findEncounter_none_of_absent {id : String} {es : List Encounter}
    (h : ∀ e ∈ es, e.id ≠ id) : findEncounter id es = none := by
  simp only [findEncounter, List.find?_eq_none]
  intro e he hid
  exact h e he (by simpa using hid)

theorem first_with_id {id : String} {es : List Encounter} (h : ∃ e ∈ es, e.id = id) :
    ∃ pre e post, es = pre ++ e :: post ∧ e.id = id ∧ ∀ x ∈ pre, x.id ≠ id := by
  induction es with
  | nil => simp at h
  | cons a es ih =>
    by_cases ha : a.id = id
    · exact ⟨[], a, es, rfl, ha, by simp⟩
    · have h2 : ∃ e ∈ es, e.id = id := by
        obtain ⟨e, he, hid⟩ := h
        rcases List.mem_cons.1 he with rfl | he
        · exact absurd hid ha
        · exact ⟨e, he, hid⟩
      obtain ⟨pre, e, post, h3, h4, h5⟩ := ih h2
      refine ⟨a :: pre, e, post, by rw [h3]; rfl, h4, ?_⟩
      intro x hx
      rcases List.mem_cons.1 hx with rfl | hx
      · exact ha
      · exact h5 x hx

theorem updateEncounter_first (id : String) (f : Encounter → Encounter)
    (pre : List Encounter) (e : Encounter) (post : List Encounter)
    (he : e.id = id) (hpre : ∀ x ∈ pre, x.id ≠ id) :
    updateEncounter id f (pre ++ e :: post) = pre ++ f e :: post := by
  induction pre with
  | nil => simp [updateEncounter, he]
  | cons a pre ih =>
    have ha : a.id ≠ id := hpre a (List.mem_cons_self _ _)
    have := ih (fun x hx => hpre x (List.mem_cons_of_mem _ hx))
    simp [updateEncounter, ha, this]

theorem findEncounter_first (id : String) (pre : List Encounter) (e : Encounter)
    (post : List Encounter) (he : e.id = id) (hpre : ∀ x ∈ pre, x.id ≠ id) :
    findEncounter id (pre ++ e :: post) = some e := by
  induction pre with
  | nil => simp [findEncounter, he]
  | cons a pre ih =>
    have ha : a.id ≠ id := hpre a (List.mem_cons_self _ _)
    have := ih (fun x hx => hpre x (List.mem_cons_of_mem _ hx))
    simp only [findEncounter] at this ⊢
    simp [List.find?_cons, ha, this]

/-- C10: `damageEncounter(id, amount)` on a registry holding an encounter with
that id replaces the first such encounter `e` by `e` with `stamina.current` set
to `clamp(current - amount, 0, initial)` and with status defeated if that is 0,
its status as it was otherwise; every other encounter, the order of the
registry, the active id, the sheet, the logs and the dice are unchanged. When no
encounter has that id the whole state is unchanged. -/
theorem damageEncounter_spec (id : String) (dmg : Int) (w : World) :
    ((∃ e ∈ w.state.encounters, e.id = id) →
      ∃ pre e post, w.state.encounters = pre ++ e :: post ∧ e.id = id ∧
        (∀ x ∈ pre, x.id ≠ id) ∧
        damageEncounter id dmg w =
          { w with
            state :=
              { w.state with
                encounters :=
                  pre ++
                    { e with
                      stamina :=
                        { e.stamina with
                          current :=
                            some (clamp (toNumber e.stamina.current - dmg) 0
                              (toNumber e.stamina.initial)) }
                      status :=
                        if clamp (toNumber e.stamina.current - dmg) 0
                            (toNumber e.stamina.initial) = 0 then "defeated"
                        else e.status } :: post } }) ∧
      ((∀ e ∈ w.state.encounters, e.id ≠ id) → damageEncounter id dmg w = w) := by
  constructor
  · intro h
    obtain ⟨pre, e, post, h1, h2, h3⟩ := first_with_id h
    refine ⟨pre, e, post, h1, h2, h3, ?_⟩
    unfold damageEncounter
    rw [h1, findEncounter_first id pre e post h2 h3, updateEncounter_first id _ pre e post h2 h3]
    rfl
  · intro h
    unfold damageEncounter
    rw [findEncounter_none_of_absent h]

/-- Witness for C10 (scenario C): stamina 8 of 8 and amount 10 give current 0
and status defeated. -/
theorem damageEncounter_spec_witness :
    (∃ e ∈ sampleWorld.state.encounters, e.id = "m1") ∧
      (damageEncounter "m1" 10 sampleWorld).state.encounters =
        [{ sampleEncounter with
            stamina := { initial := some 8, current := some 0 }, status := "defeated" }] ∧
      (damageEncounter "m1" 10 sampleWorld).state.player = sampleWorld.state.player := by
  obtain ⟨pre, e, post, h1, h2, h3, h4⟩ :=
    (damageEncounter_spec "m1" 10 sampleWorld).1 ⟨sampleEncounter, by decide, rfl⟩
  refine ⟨⟨sampleEncounter, by decide, rfl⟩, by decide, ?_⟩
  rw [h4]

/-! ## C7: sanitize-on-load -/

theorem getKey_setKey (k k' : String) (v : JVal) (l : List (String × JVal)) :
    getKey k (setKey k' v l) = if k' = k then some v else getKey k l := by
  induction l with
  | nil => simp [setKey, getKey]
  | cons kv rest ih =>
    unfold setKey
    by_cases h : kv.1 = k'
    · rw [if_pos h]
      by_cases h2 : k' = k
      · simp [h2, getKey]
      · have h3 : ¬ kv.1 = k := by rw [h]; exact h2
        simp [h2, h3, getKey]
    · rw [if_neg h]
      by_cases h2 : kv.1 = k
      · have h3 : ¬ k' = k := by rw [← h2]; exact fun e => h e.symm
        rw [if_neg h3]
        simp [h2, getKey]
      · simp [h2, getKey, ih]

theorem getKey_capStatProps_ne (k k' : String) (h : k' ≠ k) (p : List (String × JVal)) :
    getKey k (capStatProps k' p) = getKey k p := by
  unfold capStatProps
  split
  · split
    · rw [getKey_setKey, if_neg h]
    · rfl
  · rfl

theorem isArr_arrayOrEmpty (v : Option JVal) : isArr (some (arrayOrEmpty v)) = true := by
  unfold arrayOrEmpty
  split <;> rfl

/-- Evaluation on the empty object: the sanitizer returns the default state,
which satisfies every invariant. -/
theorem sanitize_empty_ok :
    (sanitizeState (JVal.obj [])).map dataModelInv = some true := by
  decide

/-- On `null` the sanitizer raises. -/
theorem sanitize_null_raises : sanitizeState JVal.null = none := rfl

/-- A player stat with a negative initial value is clamped to 0, above its
initial value. -/
theorem sanitize_negative_initial :
    (sanitizeState negInitialSnapshot).map
        (fun out => getKey "skill" (propsOf (getKey "player" (ownProps out)))) =
      some (some (JVal.obj [("initial", JVal.num (-5)), ("current", JVal.num 0)])) := by
  rfl

/-- A current value that is not a finite number is not clamped, and provisions
and gold that are not finite fall back to 10 and 0: skill 5 of `Infinity` stays
as it is. -/
theorem sanitize_infinite_current :
    (sanitizeState infiniteSnapshot).map
        (fun out =>
          (getKey "skill" (propsOf (getKey "player" (ownProps out))),
            getKey "provisions" (propsOf (getKey "player" (ownProps out))),
            getKey "gold" (propsOf (getKey "player" (ownProps out))))) =
      some (some (JVal.obj [("initial", JVal.num 5), ("current", JVal.inf false)]),
        some (JVal.num 10), some (JVal.num 0)) := by
  rfl

/-- A current value that is a string is returned as it is. -/
theorem sanitize_string_current :
    (sanitizeState stringCurrentSnapshot).map
        (fun out => getKey "stamina" (propsOf (getKey "player" (ownProps out)))) =
      some (some (JVal.obj [("initial", JVal.num 20), ("current", JVal.str "50")])) := by
  rfl

/-- The malformed snapshot is repaired field by field: skill 50 of 10 becomes 10
of 10, provisions 5000 become 999, gold -3 becomes 0, the equipment becomes the
empty list, the potion choice becomes none and `used` the boolean true, the
encounters and the luck log become empty lists. -/
theorem sanitize_messy :
    (sanitizeState messySnapshot).map
        (fun out =>
          (getKey "skill" (propsOf (getKey "player" (ownProps out))),
            getKey "provisions" (propsOf (getKey "player" (ownProps out))),
            getKey "gold" (propsOf (getKey "player" (ownProps out))),
            getKey "equipment" (propsOf (getKey "player" (ownProps out))),
            getKey "potion" (propsOf (getKey "player" (ownProps out))),
            getKey "encounters" (ownProps out),
            getKey "luck" (propsOf (getKey "logs" (ownProps out))))) =
      some (some (JVal.obj [("initial", JVal.num 10), ("current", JVal.num 10)]),
        some (JVal.num 999), some (JVal.num 0), some (JVal.arr []),
        some (JVal.obj [("choice", JVal.str "none"), ("used", JVal.bool true)]),
        some (JVal.arr []), some (JVal.arr [])) := by
  rfl

/-- C7, as stated, fails: the sanitizer returns the encounters of a snapshot as
they are, so an encounter with stamina 50 of 8 survives loading and the result
violates the stat bounds on encounters. -/
theorem sanitize_keeps_bad_encounter :
    (sanitizeState overfullEncounterSnapshot).map
        (fun out => getKey "encounters" (ownProps out)) =
      some (getKey "encounters" (ownProps overfullEncounterSnapshot)) ∧
    (sanitizeState overfullEncounterSnapshot).map
        (fun out => encountersOk (getKey "encounters" (ownProps out))) = some false ∧
    (sanitizeState overfullEncounterSnapshot).map dataModelInv = some false := by
  refine ⟨rfl, by decide, by decide⟩

theorem sanitizeState_eq (s : JVal) (hs : s ≠ JVal.null) :
    sanitizeState s = some (JVal.obj (enforceCapsProps (sanitizeMerge s))) := by
  cases s <;> first | rfl | exact absurd rfl hs

theorem getKey_player_sanitizeMerge (s : JVal) :
    getKey "player" (sanitizeMerge s) = some (JVal.obj (sanitizePlayer s)) := by
  simp [sanitizeMerge, getKey_setKey]

theorem numIn_clamp (x lo hi : Int) (h : lo ≤ hi) :
    numIn lo hi (some (JVal.num (clamp x lo hi))) = true := by
  simp only [numIn, clamp, decide_eq_true_eq]; omega

theorem choiceOk_fixChoice (q : List (String × JVal)) :
    choiceOk (getKey "choice" (fixChoice q)) = true := by
  unfold fixChoice
  split
  · next c hc =>
    split
    · next hin => rw [hc]; simpa [choiceOk] using hin
    · simp [getKey_setKey, choiceOk]
  · simp [getKey_setKey, choiceOk]

theorem shapeInv_sanitized (s : JVal) :
    shapeInv (JVal.obj (enforceCapsProps (sanitizeMerge s))) = true := by
  unfold enforceCapsProps
  rw [getKey_player_sanitizeMerge]
  simp [shapeInv, ownProps, getKey_setKey, propsOf, getKey_capStatProps_ne, numIn_clamp]
  simp [sanitizePlayer, sanitizeMerge, sanitizeLogs, getKey_setKey, isArr_arrayOrEmpty, isBoolean,
    choiceOk_fixChoice]

theorem propsOf_obj (kvs : List (String × JVal)) : propsOf (some (JVal.obj kvs)) = kvs := rfl

/-- The value of a key is a record with the keys `initial` and `current`. -/
theorem statRecord_spread (d : Stat) (x : List (String × JVal)) :
    (getKey "initial" (spread (statProps d) x)).isSome = true ∧
      (getKey "current" (spread (statProps d) x)).isSome = true := by
  simp [spread, statProps, getKey]

theorem getKey_mergeStat_self (k : String) (d : Stat) (p : List (String × JVal)) :
    getKey k (mergeStat k d p) =
      some (JVal.obj (spread (statProps d) (orEmpty (getKey k p)))) := by
  simp [mergeStat, getKey_setKey]

theorem getKey_mergeStat_ne (k k' : String) (h : k' ≠ k) (d : Stat)
    (p : List (String × JVal)) : getKey k (mergeStat k' d p) = getKey k p := by
  simp [mergeStat, getKey_setKey, h]

theorem getKey_stat_sanitizePlayer (s : JVal) (k : String)
    (hk : k = "skill" ∨ k = "stamina" ∨ k = "luck") :
    getKey k (sanitizePlayer s) =
      getKey k
        (mergeStat "luck" createDefaultState.player.luck
          (mergeStat "stamina" createDefaultState.player.stamina
            (mergeStat "skill" createDefaultState.player.skill
              (spread (playerProps createDefaultState.player)
                (orEmpty (getKey "player" (ownProps s))))))) := by
  rcases hk with rfl | rfl | rfl <;> simp [sanitizePlayer, getKey_setKey]

theorem statRecord_sanitizePlayer (s : JVal) :
    (∃ st, getKey "skill" (sanitizePlayer s) = some (JVal.obj st) ∧
        (getKey "initial" st).isSome = true ∧ (getKey "current" st).isSome = true) ∧
      (∃ st, getKey "stamina" (sanitizePlayer s) = some (JVal.obj st) ∧
        (getKey "initial" st).isSome = true ∧ (getKey "current" st).isSome = true) ∧
      (∃ st, getKey "luck" (sanitizePlayer s) = some (JVal.obj st) ∧
        (getKey "initial" st).isSome = true ∧ (getKey "current" st).isSome = true) := by
  refine ⟨?_, ?_, ?_⟩
  · rw [getKey_stat_sanitizePlayer s "skill" (Or.inl rfl),
      getKey_mergeStat_ne "skill" "luck" (by decide),
      getKey_mergeStat_ne "skill" "stamina" (by decide), getKey_mergeStat_self]
    exact ⟨_, rfl, statRecord_spread _ _⟩
  · rw [getKey_stat_sanitizePlayer s "stamina" (Or.inr (Or.inl rfl)),
      getKey_mergeStat_ne "stamina" "luck" (by decide), getKey_mergeStat_self]
    exact ⟨_, rfl, statRecord_spread _ _⟩
  · rw [getKey_stat_sanitizePlayer s "luck" (Or.inr (Or.inr rfl)), getKey_mergeStat_self]
    exact ⟨_, rfl, statRecord_spread _ _⟩

theorem statOkNonneg_capStatProps (k : String) (p : List (String × JVal))
    (h : ∃ st, getKey k p = some (JVal.obj st) ∧
      (getKey "initial" st).isSome = true ∧ (getKey "current" st).isSome = true) :
    statOkNonneg (getKey k (capStatProps k p)) = true := by
  obtain ⟨st, hst, hi0, hc0⟩ := h
  unfold capStatProps
  rw [hst]
  simp only []
  split
  · next init cur hi hc =>
    have hi2 : getKey "initial" (setKey "current" (JVal.num (clamp cur 0 init)) st) =
        some (JVal.num init) := by
      rw [getKey_setKey, hi]; simp
    have hc2 : getKey "current" (setKey "current" (JVal.num (clamp cur 0 init)) st) =
        some (JVal.num (clamp cur 0 init)) := by
      rw [getKey_setKey]; simp
    simp only [getKey_setKey, if_true, statOkNonneg, statOkNonnegProps, hi2, hc2,
      Option.isSome_some, Bool.true_and, decide_eq_true_eq]
    intro h0
    exact clamp_bounds h0
  · next hno =>
    rw [hst]
    simp only [statOkNonneg, hi0, hc0, Bool.true_and]
    unfold statOkNonnegProps
    split
    · next i c hi hc => exact absurd hc (hno i c hi)
    · rfl

theorem statRecord_capStatProps_ne (k k' : String) (hne : k' ≠ k) (p : List (String × JVal))
    (h : ∃ st, getKey k p = some (JVal.obj st) ∧
      (getKey "initial" st).isSome = true ∧ (getKey "current" st).isSome = true) :
    ∃ st, getKey k (capStatProps k' p) = some (JVal.obj st) ∧
      (getKey "initial" st).isSome = true ∧ (getKey "current" st).isSome = true := by
  rw [getKey_capStatProps_ne k k' hne]
  exact h

theorem playerStatsOkNonneg_sanitized (s : JVal) :
    playerStatsOkNonneg (JVal.obj (enforceCapsProps (sanitizeMerge s))) = true := by
  obtain ⟨h1, h2, h3⟩ := statRecord_sanitizePlayer s
  have e1 := statOkNonneg_capStatProps "skill" _ h1
  have e2 := statOkNonneg_capStatProps "stamina" _
    (statRecord_capStatProps_ne "stamina" "skill" (by decide) _ h2)
  have e3 := statOkNonneg_capStatProps "luck" _
    (statRecord_capStatProps_ne "luck" "stamina" (by decide) _
      (statRecord_capStatProps_ne "luck" "skill" (by decide) _ h3))
  unfold enforceCapsProps
  rw [getKey_player_sanitizeMerge]
  simp [playerStatsOkNonneg, ownProps, getKey_setKey, getKey_capStatProps_ne, propsOf_obj, e1, e2,
    e3]

/-- C7, amended: for every input snapshot other than `null` (arbitrary, partial
or malformed, including the empty object), `sanitizeState` returns without
raising a state in which each of the three player stats is a record of
`initial` and `current` that has `0 <= current <= initial` when both values are
finite numbers and `initial` is not negative, provisions is a number in
`[0, 999]`, gold is a number in `[0, 999999]`, `potion.choice` is one of
none/skill/strength/fortune, `potion.used` is a boolean, and equipment,
treasure, encounters and the three logs are lists. -/
theorem sanitize_establishes_invariants (s : JVal) (hs : s ≠ JVal.null) :
    ∃ out, sanitizeState s = some out ∧ playerStatsOkNonneg out = true ∧ shapeInv out = true :=
  ⟨_, sanitizeState_eq s hs, playerStatsOkNonneg_sanitized s, shapeInv_sanitized s⟩

/-- Witness for C7: the malformed snapshot, whose skill 50 of 10, provisions
5000 and gold -3 come back as 10 of 10, 999 and 0. -/
theorem sanitize_establishes_invariants_witness :
    messySnapshot ≠ JVal.null ∧
      (∃ out, sanitizeState messySnapshot = some out ∧ playerStatsOkNonneg out = true ∧
        shapeInv out = true) ∧
      (sanitizeState messySnapshot).map
          (fun out =>
            (getKey "skill" (propsOf (getKey "player" (ownProps out))),
              getKey "provisions" (propsOf (getKey "player" (ownProps out))),
              getKey "gold" (propsOf (getKey "player" (ownProps out))))) =
        some (some (JVal.obj [("initial", JVal.num 10), ("current", JVal.num 10)]),
          some (JVal.num 999), some (JVal.num 0)) :=
  ⟨fun h => JVal.noConfusion h,
    sanitize_establishes_invariants messySnapshot (fun h => JVal.noConfusion h), rfl⟩

/-! ## C8: the persistence round trip -/

theorem setKey_getKey_self (k : String) (v : JVal) (l : List (String × JVal))
    (h : getKey k l = some v) : setKey k v l = l := by
  induction l with
  | nil => simp [getKey] at h
  | cons kv rest ih =>
    unfold getKey at h
    unfold setKey
    by_cases hk : kv.1 = k
    · rw [if_pos hk] at h ⊢
      obtain ⟨a, b⟩ := kv
      simp only [Option.some.injEq] at h
      simp only at hk
      rw [hk, h]
    · rw [if_neg hk] at h ⊢
      rw [ih h]

theorem capStatProps_fixed (k : String) (p : List (String × JVal)) (st : Stat)
    (hk : getKey k p = some (JVal.obj (statProps st))) (hb : statBounds st = true) :
    capStatProps k p = p := by
  obtain ⟨i, c⟩ := st
  unfold capStatProps
  rw [hk]
  cases i <;> cases c <;> simp [statProps, getKey, optNum, setKey]
  next i c =>
    simp [statBounds] at hb
    rw [clamp_eq_self hb.1 hb.2]
    exact setKey_getKey_self _ _ _ hk

/-! ## The two readings of `enforceCaps` agree -/

theorem capStatProps_statProps (k : String) (p : List (String × JVal)) (st : Stat)
    (hk : getKey k p = some (JVal.obj (statProps st))) :
    capStatProps k p = setKey k (JVal.obj (statProps (capStat st))) p := by
  obtain ⟨i, c⟩ := st
  unfold capStatProps
  rw [hk]
  cases i <;> cases c <;> simp [statProps, getKey, optNum, setKey, capStat] <;>
    exact (setKey_getKey_self _ _ _ hk).symm

/-- On the snapshot of a typed state, `enforceCaps` read on JSON objects does
what `enforceCaps` read on typed states does. -/
theorem enforceCapsProps_eq (s : GameState) :
    enforceCapsProps (stateProps s) = stateProps (enforceCaps s) := by
  have hgk : getKey "player" (stateProps s) = some (JVal.obj (playerProps s.player)) := rfl
  unfold enforceCapsProps
  rw [hgk]
  simp only []
  rw [capStatProps_statProps "skill" (playerProps s.player) s.player.skill rfl]
  rw [capStatProps_statProps "stamina" _ s.player.stamina (by rw [getKey_setKey]; rfl)]
  rw [capStatProps_statProps "luck" _ s.player.luck (by rw [getKey_setKey, getKey_setKey]; rfl)]
  simp [playerProps, getKey, setKey, finiteOr, stateProps, enforceCaps]

theorem fixChoice_known (q : List (String × JVal)) (c : String)
    (hq : getKey "choice" q = some (JVal.str c))
    (hc : c ∈ ["none", "skill", "strength", "fortune"]) : fixChoice q = q := by
  unfold fixChoice
  rw [hq]
  simp only [hc, if_true]

theorem sanitizeMerge_toJson (s : GameState) (h : WellFormed s) :
    sanitizeMerge (toJson s) = stateProps s := by
  obtain ⟨-, -, -, hc⟩ := h
  have hfix := fixChoice_known (potionProps s.player.potion) s.player.potion.choice rfl hc
  simp only [potionProps] at hfix
  simp [sanitizeMerge, toJson, ownProps, stateProps, spread, getKey, setKey, createDefaultState,
    sanitizePlayer, sanitizeLogs, orEmpty, truthy, playerProps, mergeStat, statProps, arrayOrEmpty,
    strArr, finiteOr, potionProps, logsProps, optStr, optNum, hfix]

theorem enforceCapsProps_stateProps (s : GameState) (h : WellFormed s) :
    enforceCapsProps (stateProps s) = stateProps s := by
  obtain ⟨hb, hp, hg, -⟩ := h
  simp only [playerBounds, Bool.and_eq_true] at hb
  have e1 : capStatProps "skill" (playerProps s.player) = playerProps s.player :=
    capStatProps_fixed _ _ s.player.skill rfl hb.1.1
  have e2 : capStatProps "stamina" (playerProps s.player) = playerProps s.player :=
    capStatProps_fixed _ _ s.player.stamina rfl hb.1.2
  have e3 : capStatProps "luck" (playerProps s.player) = playerProps s.player :=
    capStatProps_fixed _ _ s.player.luck rfl hb.2
  have hgk : getKey "player" (stateProps s) = some (JVal.obj (playerProps s.player)) := rfl
  unfold enforceCapsProps
  rw [hgk]
  simp only [e1, e2, e3]
  simp [playerProps, getKey, setKey, finiteOr, clamp_eq_self hp.1 hp.2, clamp_eq_self hg.1 hg.2,
    stateProps]

/-- C8: for every well-formed game state (stats within `0 <= current <= initial`,
provisions in `[0, 999]`, gold in `[0, 999999]`, potion choice in the enum),
applying `sanitizeState` to the snapshot saving produced returns, without
raising, that same snapshot: key for key and value for value the loaded state
is the saved one. -/
theorem save_load_round_trip (s : GameState) (h : WellFormed s) :
    sanitizeState (toJson s) = some (toJson s) ∧ loadState (some (toJson s)) = toJson s := by
  have h1 : sanitizeState (toJson s) = some (toJson s) := by
    rw [sanitizeState_eq _ (fun e => JVal.noConfusion e), sanitizeMerge_toJson s h,
      enforceCapsProps_stateProps s h]
    rfl
  refine ⟨h1, ?_⟩
  simp [loadState, h1]

/-- Witness for C8: the sample state. -/
theorem save_load_round_trip_witness :
    WellFormed sampleState ∧ sanitizeState (toJson sampleState) = some (toJson sampleState) :=
  ⟨⟨by decide, by decide, by decide, by decide⟩,
    (save_load_round_trip sampleState ⟨by decide, by decide, by decide, by decide⟩).1⟩

/-! ## C11: rollInitialStats -/

/-- C11: for every state and dice in 1..6, `rollInitialStats` draws four dice
`d1, d2, d3, d4` in that order and sets `skill.initial = d1 + 6`,
`stamina.initial = d2 + d3 + 12` and `luck.initial = d4 + 6`, sets each current
value to its initial value, and adds exactly one entry to the luck log, leaving
the other logs as they were; hence skill and luck lie in `[7, 12]` and stamina
in `[14, 24]`. -/
theorem rollInitialStats_spec (rng : Nat → Int) (now : String) (w : World) (hd : DiceOk rng) :
    (rollInitialStats rng now w).drawn = w.drawn + 4 ∧
      (rollInitialStats rng now w).state.player.skill =
        { initial := some (rng w.drawn + 6), current := some (rng w.drawn + 6) } ∧
      (rollInitialStats rng now w).state.player.stamina =
        { initial := some (rng (w.drawn + 1) + rng (w.drawn + 2) + 12)
          current := some (rng (w.drawn + 1) + rng (w.drawn + 2) + 12) } ∧
      (rollInitialStats rng now w).state.player.luck =
        { initial := some (rng (w.drawn + 3) + 6), current := some (rng (w.drawn + 3) + 6) } ∧
      (∃ entry, (rollInitialStats rng now w).state.logs.luck = entry :: w.state.logs.luck) ∧
      (rollInitialStats rng now w).state.logs.combat = w.state.logs.combat ∧
      (rollInitialStats rng now w).state.logs.dice = w.state.logs.dice ∧
      (7 ≤ rng w.drawn + 6 ∧ rng w.drawn + 6 ≤ 12) ∧
      (14 ≤ rng (w.drawn + 1) + rng (w.drawn + 2) + 12 ∧
        rng (w.drawn + 1) + rng (w.drawn + 2) + 12 ≤ 24) ∧
      (7 ≤ rng (w.drawn + 3) + 6 ∧ rng (w.drawn + 3) + 6 ≤ 12) := by
  have h0 := hd w.drawn
  have h1 := hd (w.drawn + 1)
  have h2 := hd (w.drawn + 2)
  have h3 := hd (w.drawn + 3)
  refine ⟨rfl, rfl, rfl, rfl, ⟨_, rfl⟩, rfl, rfl, ?_, ?_, ?_⟩ <;> omega

/-- Witness for C11 (scenario A): every die showing 4 gives skill 10, stamina 20
and luck 10, each current value equal to its initial value. -/
theorem rollInitialStats_spec_witness :
    DiceOk (fun _ => 4) ∧
      (rollInitialStats (fun _ => 4) "t" ⟨createDefaultState, 0⟩).state.player.skill =
        { initial := some 10, current := some 10 } ∧
      (rollInitialStats (fun _ => 4) "t" ⟨createDefaultState, 0⟩).state.player.stamina =
        { initial := some 20, current := some 20 } ∧
      (rollInitialStats (fun _ => 4) "t" ⟨createDefaultState, 0⟩).state.player.luck =
        { initial := some 10, current := some 10 } := by
  have h := rollInitialStats_spec (fun _ => 4) "t" ⟨createDefaultState, 0⟩ (fun _ => by norm_num)
  refine ⟨fun _ => by norm_num, ?_, ?_, ?_⟩
  · rw [h.2.1]; decide
  · rw [h.2.2.1]; decide
  · rw [h.2.2.2.1]; decide

/-! ## C14: re-clamping is idempotent -/

theorem capStat_idem (st : Stat) : capStat (capStat st) = capStat st := by
  obtain ⟨i, c⟩ := st
  cases i <;> cases c <;> simp [capStat, clamp_idem]

/-- C14: for every state, with stats rolled or not and with stats, provisions or
gold inside or outside their bounds, `enforceCaps (enforceCaps s)` is
`enforceCaps s`. -/
theorem enforceCaps_idempotent (s : GameState) : enforceCaps (enforceCaps s) = enforceCaps s := by
  simp [enforceCaps, capStat_idem, clamp_idem]

/-- On a state outside its bounds the first application does change the state:
stamina 50 of 20 becomes 20 of 20. -/
theorem enforceCaps_overfull :
    (enforceCaps overfullState).player.stamina = { initial := some 20, current := some 20 } ∧
      enforceCaps overfullState ≠ overfullState := by
  refine ⟨by decide, by decide⟩

/-! ## C12: addEncounter -/

/-- C12, as stated, fails: with stamina 0 the new encounter starts with
`stamina.initial = 1` and `stamina.current = 0`, which are not equal. -/
theorem addEncounter_current_below_initial :
    (addEncounter "m2" (some "Rat") (some 5) (some 0)
        ⟨createDefaultState, 0⟩).state.encounters.map (fun e => (e.id, e.stamina)) =
      [("m2", { initial := some 1, current := some 0 })] := by
  decide

/-- C12, amended: for every registry, every non-empty name and all numbers
`skill` and `stamina`, `addEncounter` creates an encounter with
`skill = clamp(skill, 1, 99)`, `stamina.initial = clamp(stamina, 1, 999)`,
`stamina.current = clamp(stamina, 0, 999)`, which equals `stamina.initial` when
`stamina >= 1`, and status active; the new encounter is first in the registry,
followed by the previous encounters in their previous order, the active id
becomes the new encounter's id, and nothing else changes. -/
theorem addEncounter_spec (newId name : String) (skill stamina : Int) (w : World)
    (hname : name ≠ "") :
    addEncounter newId (some name) (some skill) (some stamina) w =
        { w with
          state :=
            { w.state with
              encounters :=
                { id := newId, name := name.trim, skill := clamp skill 1 99
                  stamina :=
                    { initial := some (clamp stamina 1 999)
                      current := some (clamp stamina 0 999) }
                  status := "active" } :: w.state.encounters
              activeEncounterId := some newId } } ∧
      (1 ≤ stamina → clamp stamina 0 999 = clamp stamina 1 999) := by
  constructor
  · simp [addEncounter, hname, newEncounter]
  · intro h
    unfold clamp
    omega

/-- Witness for C12: an Orc of skill 8 and stamina 8 added to the empty
registry. -/
theorem addEncounter_spec_witness :
    "Orc" ≠ "" ∧
      (addEncounter "m1" (some "Orc") (some 8) (some 8)
          ⟨createDefaultState, 0⟩).state.encounters.map
            (fun e => (e.id, e.skill, e.stamina, e.status)) =
        [("m1", 8, { initial := some 8, current := some 8 }, "active")] ∧
      (addEncounter "m1" (some "Orc") (some 8) (some 8)
        ⟨createDefaultState, 0⟩).state.activeEncounterId = some "m1" := by
  have h := (addEncounter_spec "m1" "Orc" 8 8 ⟨createDefaultState, 0⟩ (by decide)).1
  refine ⟨by decide, ?_, ?_⟩
  · rw [h]; decide
  · rw [h]

/-! ## C13: the registry invariant -/

theorem hasEncounter_update (a id : String) (f : Encounter → Encounter)
    (hf : ∀ e, (f e).id = e.id) (es : List Encounter) :
    hasEncounter a (updateEncounter id f es) = hasEncounter a es := by
  induction es with
  | nil => rfl
  | cons e es ih =>
    unfold updateEncounter
    unfold hasEncounter at ih ⊢
    split
    · simp [hf]
    · simp only [List.any_cons, ih]

theorem hasEncounter_filter (a id : String) (es : List Encounter) (h : a ≠ id) :
    hasEncounter a (es.filter (fun e => e.id != id)) = hasEncounter a es := by
  induction es with
  | nil => rfl
  | cons e es ih =>
    unfold hasEncounter at ih ⊢
    by_cases he : e.id = id
    · have hne : ¬ e.id = a := fun h2 => h (h2 ▸ he)
      simp [List.filter_cons, he, ih]
      intro h3
      exact absurd (he ▸ h3 : id = a) (fun h4 => h h4.symm)
    · simp [List.filter_cons, he, ih]

theorem combatRound_registry (useLuck : Bool) (rng : Nat → Int) (now : String) (w : World) :
    (combatRound useLuck rng now w).1.state.activeEncounterId = w.state.activeEncounterId ∧
      ∀ a, hasEncounter a (combatRound useLuck rng now w).1.state.encounters =
        hasEncounter a w.state.encounters := by
  unfold combatRound
  simp only []
  split
  · exact ⟨rfl, fun _ => rfl⟩
  · split
    · exact ⟨rfl, fun _ => rfl⟩
    · split
      · exact ⟨rfl, fun _ => rfl⟩
      · have hl : ∀ (c : Bool) (o : Outcome) (v : World),
            (if c = true then luckStep o rng now v else (2, v)).2.state.activeEncounterId =
                v.state.activeEncounterId ∧
              (if c = true then luckStep o rng now v else (2, v)).2.state.encounters =
                v.state.encounters := by
          intro c o v
          split <;> exact ⟨rfl, rfl⟩
        split
        · refine ⟨?_, fun a => ?_⟩
          · simp only [enforceCaps_activeEncounterId, logCombat_activeEncounterId]
            exact (hl _ _ _).1
          · simp only [enforceCaps_encounters, logCombat_encounters]
            rw [hasEncounter_update a _ (hitEncounter _) (fun _ => rfl), (hl _ _ _).2]
            rfl
        · refine ⟨?_, fun a => ?_⟩
          · simp only [enforceCaps_activeEncounterId, logCombat_activeEncounterId]
            exact (hl _ _ _).1
          · simp only [enforceCaps_encounters, logCombat_encounters]
            rw [(hl _ _ _).2]
            rfl
        · refine ⟨?_, fun a => ?_⟩
          · simp only [enforceCaps_activeEncounterId, logCombat_activeEncounterId]
            exact (hl _ _ _).1
          · simp only [enforceCaps_encounters, logCombat_encounters]
            rw [(hl _ _ _).2]
            rfl

theorem activeOk_step (op : Op) (rng : Nat → Int) (now : String) (w : World)
    (hset : ∀ id, op = Op.setActiveEncounter id → hasEncounter id w.state.encounters = true)
    (h : activeOk w.state = true) : activeOk (step op rng now w).state = true := by
  cases op with
  | rollInitialStats => exact h
  | eatProvision =>
    simp only [step]
    unfold eatProvision
    simp only []
    split
    · exact h
    · split <;> exact h
  | testLuck =>
    simp only [step]
    unfold testLuck
    simp only []
    split <;> exact h
  | usePotion =>
    simp only [step]
    unfold usePotion
    simp only []
    split
    · exact h
    · split
      · exact h
      · split
        · exact h
        · unfold activeOk at h ⊢
          simp only [enforceCaps_activeEncounterId, enforceCaps_encounters]
          split_ifs <;> exact h
  | addEncounter newId name skill stamina =>
    simp only [step]
    unfold addEncounter
    split
    · exact h
    · split
      · exact h
      · split
        · simp [activeOk, hasEncounter, newEncounter]
        · exact h
  | setActiveEncounter id =>
    simp only [step, setActiveEncounter, activeOk]
    exact hset id rfl
  | removeEncounter id =>
    simp only [step, removeEncounter]
    unfold activeOk at h ⊢
    simp only []
    by_cases ha : w.state.activeEncounterId = some id
    · rw [if_pos ha]
    · rw [if_neg ha]
      cases hact : w.state.activeEncounterId with
      | none => rfl
      | some a =>
        rw [hact] at h ha
        simp only [] at h ⊢
        rw [hasEncounter_filter a id _ (fun e => ha (by rw [e]))]
        exact h
  | damageEncounter id dmg =>
    simp only [step]
    unfold damageEncounter
    split
    · exact h
    · unfold activeOk at h ⊢
      simp only []
      cases hact : w.state.activeEncounterId with
      | none => rfl
      | some a =>
        rw [hact] at h
        simp only [] at h ⊢
        rw [hasEncounter_update a id (hitEncounter dmg) (fun _ => rfl)]
        exact h
  | toggleEncounterEscaped id =>
    simp only [step]
    unfold toggleEncounterEscaped
    split
    · exact h
    · unfold activeOk at h ⊢
      simp only []
      cases hact : w.state.activeEncounterId with
      | none => rfl
      | some a =>
        rw [hact] at h
        simp only [] at h ⊢
        rw [hasEncounter_update a id flipEscaped (fun _ => rfl)]
        exact h
  | combatRound useLuck =>
    simp only [step]
    obtain ⟨h1, h2⟩ := combatRound_registry useLuck rng now w
    unfold activeOk at h ⊢
    rw [h1]
    cases hact : w.state.activeEncounterId with
    | none => rfl
    | some a =>
      rw [hact] at h
      simp only [] at h ⊢
      rw [h2 a]
      exact h

theorem activeOk_runOps (rng : Nat → Int) (ops : List (String × Op)) (w : World)
    (hset : setActiveExisting rng ops w = true) (h : activeOk w.state = true) :
    activeOk (runOps rng ops w).state = true := by
  induction ops generalizing w with
  | nil => exact h
  | cons call rest ih =>
    unfold setActiveExisting at hset
    rw [Bool.and_eq_true] at hset
    unfold runOps
    apply ih
    · exact hset.2
    · apply activeOk_step _ _ _ _ _ h
      intro id hid
      have := hset.1
      rw [hid] at this
      exact this

/-- C13, as stated, fails: `setActiveEncounter` stores any id, so one call
from the default state with an id no encounter has leaves the active id
dangling. -/
theorem active_id_dangles :
    isRegistryOp (Op.setActiveEncounter "ghost") = true ∧
      (runOps (fun _ => 1) [("", Op.setActiveEncounter "ghost")]
        ⟨createDefaultState, 0⟩).state.activeEncounterId = some "ghost" ∧
      (runOps (fun _ => 1) [("", Op.setActiveEncounter "ghost")]
        ⟨createDefaultState, 0⟩).state.encounters = [] ∧
      activeOk (runOps (fun _ => 1) [("", Op.setActiveEncounter "ghost")]
        ⟨createDefaultState, 0⟩).state = false := by
  refine ⟨by decide, by decide, by decide, by decide⟩

/-- C13, amended: the default state satisfies the registry invariant, and from
any state that satisfies it (the active id is unset or is the id of an encounter
of the registry), hence from the default state, every sequence of engine
operations (`addEncounter`, `setActiveEncounter`, `removeEncounter`,
`damageEncounter`, `toggleEncounterEscaped`, `combatRound`, and the four
operations on the sheet) in which every `setActiveEncounter` is called with the
id of an encounter then in the registry leads to a state that satisfies it. And
`removeEncounter(id)`, on any state, removes every encounter with that id,
keeps the others in their order, clears the active id when it was `id` and
leaves it as it was otherwise. -/
theorem registry_invariant (rng : Nat → Int) (ops : List (String × Op)) (w : World)
    (h : activeOk w.state = true) (hset : setActiveExisting rng ops w = true) :
    activeOk createDefaultState = true ∧
      activeOk (runOps rng ops w).state = true ∧
      ∀ (id : String) (v : World),
        (removeEncounter id v).state.encounters =
            v.state.encounters.filter (fun e => e.id != id) ∧
          (∀ e ∈ (removeEncounter id v).state.encounters, e.id ≠ id) ∧
          (v.state.activeEncounterId = some id →
            (removeEncounter id v).state.activeEncounterId = none) ∧
          (v.state.activeEncounterId ≠ some id →
            (removeEncounter id v).state.activeEncounterId = v.state.activeEncounterId) := by
  refine ⟨by decide, activeOk_runOps rng ops w hset h, ?_⟩
  intro id v
  refine ⟨rfl, ?_, ?_, ?_⟩
  · intro e he
    have := (List.mem_filter.1 he).2
    simpa using this
  · intro h
    simp [removeEncounter, h]
  · intro h
    simp [removeEncounter, h]

/-- Witness for C13: from the default state the stats are rolled (every die
shows 4), a monster of skill 1 and stamina 2 is added, a second one is added and
removed, the first is made active again and a combat round is fought, which the
player wins with attack strength 18 against 9: the monster is defeated, stays in
the registry and is still the active one. -/
theorem registry_invariant_witness :
    setActiveExisting (fun _ => 4) fightCalls ⟨createDefaultState, 0⟩ = true ∧
      activeOk (runOps (fun _ => 4) fightCalls ⟨createDefaultState, 0⟩).state = true ∧
      (runOps (fun _ => 4) fightCalls ⟨createDefaultState, 0⟩).state.activeEncounterId =
        some "m1" ∧
      (runOps (fun _ => 4) fightCalls ⟨createDefaultState, 0⟩).state.encounters.map
        (fun e => (e.id, e.stamina.current, e.status)) = [("m1", some 0, "defeated")] :=
  ⟨by decide,
    (registry_invariant (fun _ => 4) fightCalls ⟨createDefaultState, 0⟩ (by decide)
      (by decide)).2.1,
    by decide, by decide⟩

/-! ## The states the program holds have capped stats -/

theorem statsCapped_default : statsCapped createDefaultState.player = true := by decide

/-- A sheet within the stat bounds has capped stats; the converse fails for a
stat such as 0 of -5. -/
theorem statsCapped_of_bounds (p : Player) (h : playerBounds p = true) :
    statsCapped p = true := by
  simp only [playerBounds, Bool.and_eq_true] at h
  exact (statsCapped_iff p).2
    ⟨capStat_of_bounds h.1.1, capStat_of_bounds h.1.2, capStat_of_bounds h.2⟩

theorem statsCapped_negStamina :
    statsCapped negStaminaState.player = true ∧ playerBounds negStaminaState.player = false := by
  refine ⟨by decide, by decide⟩

/-- Whatever `enforceCaps` returns has capped stats: so has every loaded state,
since `sanitizeState` ends with `enforceCaps`. -/
theorem statsCapped_enforceCaps (s : GameState) : statsCapped (enforceCaps s).player = true := by
  rw [statsCapped_iff]
  exact ⟨capStat_idem _, capStat_idem _, capStat_idem _⟩

theorem capStat_full (x : Int) (h : 0 ≤ x) :
    capStat { initial := some x, current := some x } = { initial := some x, current := some x } := by
  simp [capStat, clamp]; omega

/-- Every engine operation, with dice in 1..6, keeps the stats capped. -/
theorem statsCapped_step (op : Op) (rng : Nat → Int) (now : String) (w : World)
    (hd : DiceOk rng) (h : statsCapped w.state.player = true) :
    statsCapped (step op rng now w).state.player = true := by
  cases op with
  | rollInitialStats =>
    have h0 := hd w.drawn
    have h1 := hd (w.drawn + 1)
    have h2 := hd (w.drawn + 1 + 1)
    have h3 := hd (w.drawn + 1 + 1 + 1)
    rw [statsCapped_iff]
    refine ⟨?_, ?_, ?_⟩
    · exact capStat_full _ (by simp only [rollDie]; omega)
    · exact capStat_full _ (by simp only [roll2d6, rollDie]; omega)
    · exact capStat_full _ (by simp only [roll2d6, rollDie]; omega)
  | eatProvision =>
    simp only [step]
    unfold eatProvision
    simp only []
    split
    · exact h
    · next hr =>
      split
      · exact h
      · have hi := (rolled_iff _).1 (by simpa using hr)
        rw [statsCapped_iff] at h ⊢
        exact ⟨h.1, capStat_setClamp _ _ hi.2.1, h.2.2⟩
  | testLuck =>
    simp only [step]
    unfold testLuck
    simp only []
    split
    · exact h
    · next hr =>
      have hi := (rolled_iff _).1 (by simpa using hr)
      rw [statsCapped_iff] at h ⊢
      exact ⟨h.1, h.2.1, capStat_setClamp _ _ hi.2.2⟩
  | usePotion =>
    simp only [step]
    unfold usePotion
    simp only []
    split
    · exact h
    · split
      · exact h
      · split
        · exact h
        · exact statsCapped_enforceCaps _
  | addEncounter newId name skill stamina =>
    simp only [step]
    unfold addEncounter
    split
    · exact h
    · split
      · exact h
      · split <;> exact h
  | damageEncounter id dmg =>
    simp only [step]
    unfold damageEncounter
    split <;> exact h
  | removeEncounter id => exact h
  | toggleEncounterEscaped id =>
    simp only [step]
    unfold toggleEncounterEscaped
    split <;> exact h
  | setActiveEncounter id => exact h
  | combatRound useLuck =>
    simp only [step]
    unfold combatRound
    simp only []
    split
    · exact h
    · split
      · exact h
      · split
        · exact h
        · exact statsCapped_enforceCaps _

/-- The three rolls of the new-game wizard, with dice in 1..6, and the stepper
buttons keep the stats capped. -/
theorem statsCapped_other_writers (w : World) (h : statsCapped w.state.player = true) :
    (∀ d : Int, 1 ≤ d → statsCapped (wizardRollSkill d w).state.player = true) ∧
      (∀ d1 d2 : Int, 1 ≤ d1 → 1 ≤ d2 →
        statsCapped (wizardRollStamina d1 d2 w).state.player = true) ∧
      (∀ d : Int, 1 ≤ d → statsCapped (wizardRollLuck d w).state.player = true) ∧
      ∀ (key : StatKey) (delta : Int), statsCapped (adjustStat key delta w).state.player = true := by
  rw [statsCapped_iff] at h
  refine ⟨?_, ?_, ?_, ?_⟩
  · intro d hd
    rw [statsCapped_iff]
    exact ⟨capStat_full _ (by omega), h.2.1, h.2.2⟩
  · intro d1 d2 h1 h2
    rw [statsCapped_iff]
    exact ⟨h.1, capStat_full _ (by omega), h.2.2⟩
  · intro d hd
    rw [statsCapped_iff]
    exact ⟨h.1, h.2.1, capStat_full _ (by omega)⟩
  · intro key delta
    unfold adjustStat
    split
    · exact (statsCapped_iff _).2 h
    · next hr =>
      have hi := (rolled_iff _).1 (by simpa using hr)
      rw [statsCapped_iff]
      cases key
      · exact ⟨capStat_setClamp _ _ hi.1, h.2.1, h.2.2⟩
      · exact ⟨h.1, capStat_setClamp _ _ hi.2.1, h.2.2⟩
      · exact ⟨h.1, h.2.1, capStat_setClamp _ _ hi.2.2⟩

/-- From a state with capped stats, every sequence of engine operations with
dice in 1..6 leads to a state with capped stats. -/
theorem statsCapped_runOps (rng : Nat → Int) (ops : List (String × Op)) (w : World)
    (hd : DiceOk rng) (h : statsCapped w.state.player = true) :
    statsCapped (runOps rng ops w).state.player = true := by
  induction ops generalizing w with
  | nil => exact h
  | cons call rest ih =>
    unfold runOps
    exact ih _ (statsCapped_step _ _ _ _ hd h)

end FFCompanion
